import Mathlib

/-!
Verification of the geoo_controller inventory backend
(`backend_inventario/inventory/models.py` and `views.py`).

The embedding models one inventory partition (`inventory_name`): every query in
the views filters by the partition key, products are unique per
`(code, inventory_name)` and ledger records reach the partition only through
their product, so a single-partition state is faithful for the verified
claims.  `Decimal` quantities and money fields are rationals, dates are
naturals encoded as `YYYYMMDD`.  The storage engine is abstracted as lists:
a bulk insert with `ignore_conflicts=True` drops a row exactly when an
already-present row carries the same unique-constraint key.

Helper functions that live in `inventory/utils.py` (not part of the sources:
`calculate_file_checksum`, `map_localizacion`, `map_categoria`) are taken as
opaque function parameters, so every theorem holds for any behaviour of those
helpers.
-/

/-- A product row (`models.Product`).  `current_quantity` / `current_unit_cost`
are nullable columns that none of the verified code paths writes, so they are
omitted.  `id` stands for the auto primary key. -/
structure Product where
  id : Nat
  code : String
  description : String
  group : String
  initial_balance : ℚ
  initial_unit_cost : ℚ
deriving DecidableEq

/-- A ledger row (`models.InventoryRecord`).  `batchId` / `productId` stand for
the foreign keys, `date` is `YYYYMMDD`. -/
structure InventoryRecord where
  batchId : Nat
  productId : Nat
  warehouse : String
  date : Nat
  document_type : Option String
  document_number : Option String
  quantity : ℚ
  unit_cost : ℚ
  total : ℚ
  category : String
  lote : String := ""
  final_quantity : ℚ
  cost_center : Option String
deriving DecidableEq

/-- An import batch (`models.ImportBatch`); `processed = true` stands for
`processed_at` being set. -/
structure ImportBatch where
  id : Nat
  file_name : String
  checksum : String
  rows_total : Nat
  rows_imported : Nat
  processed : Bool
deriving DecidableEq

/-- A per-warehouse snapshot row (`models.WarehouseDetail`). -/
structure WarehouseDetail where
  productId : Nat
  warehouse : String
  initial_quantity : ℚ
  initial_value : ℚ
deriving DecidableEq

/-- The database state of one inventory partition.  `nextBatchId` and
`nextProductId` model the auto-increment primary keys. -/
structure DB where
  products : List Product
  records : List InventoryRecord
  batches : List ImportBatch
  warehouseDetails : List WarehouseDetail
  nextBatchId : Nat
  nextProductId : Nat
deriving DecidableEq

/-- One row of an update file, as it stands after `pandas` parsing and the
column-wise normalisation of `views.py` lines 353-380 (comma-to-dot numeric
cleaning, `fecha` reformatting, `documento` prefix extraction).  Rows dropped
by `dropna(subset=['item','fecha','documento'])` are simply absent. -/
structure UpdateRow where
  item : String
  desc_item : String
  localizacion : String
  categoria : String
  fecha : String
  documento : String
  entradas : ℚ
  salidas : ℚ
  unitario : ℚ
  total : ℚ
  cantidad : ℚ
  cost_center : Option String
deriving DecidableEq

/-- One row of the base file in the fixed column layout of
`views.py` lines 174-198. -/
structure BaseRow where
  fecha_corte : String
  mes : String
  almacen : String
  grupo : String
  codigo : String
  descripcion : String
  cantidad : ℚ
  unidad_medida : String
  costo_unitario : ℚ
  valor_total : ℚ
deriving DecidableEq

/-- Python `str.strip()`: removes leading and trailing whitespace.  (A
structurally recursive model of `String.trim`, kept computable for the
kernel.) -/
def stripChars (s : String) : String :=
  String.mk (((s.data.dropWhile Char.isWhitespace).reverse.dropWhile Char.isWhitespace).reverse)

/-- Python `str.lstrip('0')`: removes every leading `'0'` character
(`views.py` lines 205 and 645). -/
def lstripZeros (s : String) : String :=
  String.mk (s.data.dropWhile (fun c => c = '0'))

/-- Splitting a character list at `'-'` separators (auxiliary for the date
parser). -/
def splitDashAux (cur : List Char) : List Char → List (List Char)
  | [] => [cur.reverse]
  | c :: cs => if c = '-' then cur.reverse :: splitDashAux [] cs else splitDashAux (c :: cur) cs

/-- The decimal value of a non-empty all-digit character list, `none`
otherwise. -/
def digitsVal (l : List Char) : Option Nat :=
  if ¬ l = [] ∧ l.all Char.isDigit then
    some (l.foldl (fun n c => n * 10 + (c.toNat - 48)) 0)
  else none

/-- Models `datetime.strptime(date_str, '%Y-%m-%d')` of `views.py` line 735:
three dash-separated decimal components with the month in `1..12` and the day
in `1..31` (the per-month day bound of `strptime` is approximated by 31). -/
def parseYMD (s : String) : Option Nat :=
  match splitDashAux [] s.data with
  | [ys, ms, ds] =>
    match digitsVal ys, digitsVal ms, digitsVal ds with
    | some y, some m, some d =>
      if 1 ≤ m ∧ m ≤ 12 ∧ 1 ≤ d ∧ d ≤ 31 then some (y * 10000 + m * 100 + d)
      else none
    | _, _, _ => none
  | _ => none

/-- First-appearance deduplication, as `pandas.unique` / dict grouping yield. -/
def firstUniquesAux {α : Type} [DecidableEq α] (seen : List α) : List α → List α
  | [] => []
  | x :: xs => if x ∈ seen then firstUniquesAux seen xs else x :: firstUniquesAux (seen ++ [x]) xs

/-- Insertion step of an insertion sort with a boolean comparison. -/
def insertLe {α : Type} (le : α → α → Bool) (a : α) : List α → List α
  | [] => [a]
  | b :: bs => if le a b then a :: b :: bs else b :: insertLe le a bs

/-- Insertion sort; models Python `list.sort()` / `sorted()`. -/
def sortByLe {α : Type} (le : α → α → Bool) : List α → List α
  | [] => []
  | a :: as => insertLe le a (sortByLe le as)

/-- Lexicographic string comparison used by Python `sort` on `str`. -/
def strLe (a b : String) : Bool := decide (a ≤ b)

/-- The order-independent upload fingerprint of `views.py` lines 222-235:
hash every file content, sort the hashes, concatenate and hash again; with no
files the checksum is the literal `"no-files"`.  `h` stands for
`calculate_file_checksum` from `inventory/utils.py`. -/
def computeChecksum (h : String → String) (contents : List String) : String :=
  let hashes := contents.map h
  if hashes.isEmpty then "no-files"
  else h (String.join (sortByLe strLe hashes))

/-- Default row used to model `pandas` `iloc[0]` access on a group that the
call sites always take from a non-empty group. -/
def baseRowDefault : BaseRow :=
  { fecha_corte := "", mes := "", almacen := "", grupo := "", codigo := ""
    descripcion := "", cantidad := 0, unidad_medida := "", costo_unitario := 0
    valor_total := 0 }

/-- Output of `process_group` (`views.py` lines 461-477): the aggregated
quantity/value, the value-weighted unit cost, the sorted deduplicated
warehouse list and the first-seen date/month/unit. -/
structure GroupResult where
  cantidad : ℚ
  valor_total : ℚ
  costo_unitario : ℚ
  almacen : String
  fecha_corte : String
  mes : String
  unidad_medida : String
deriving DecidableEq

/-- `process_group` of `_process_base_file` (`views.py` lines 461-477).  The
unit cost is summed value over summed quantity when the summed quantity is
non-zero, otherwise the first row's unit cost (0 for an empty group). -/
def process_group (g : List BaseRow) : GroupResult :=
  let total_quantity := (g.map (fun r => r.cantidad)).sum
  let total_value := (g.map (fun r => r.valor_total)).sum
  let weighted_cost :=
    if total_quantity ≠ 0 then total_value / total_quantity
    else
      match g with
      | [] => 0
      | r :: _ => r.costo_unitario
  { cantidad := total_quantity
    valor_total := total_value
    costo_unitario := weighted_cost
    almacen := String.intercalate ", " (sortByLe strLe (firstUniquesAux [] (g.map (fun r => r.almacen))))
    fecha_corte := (g.headD baseRowDefault).fecha_corte
    mes := (g.headD baseRowDefault).mes
    unidad_medida := (g.headD baseRowDefault).unidad_medida }

/-- Example base rows of the weighted-cost aggregation example: the same code
in warehouses A and B with quantities 10/10 and values 100/300. -/
def exBaseRowA : BaseRow :=
  { baseRowDefault with codigo := "1", descripcion := "D", almacen := "A", cantidad := 10, costo_unitario := 10, valor_total := 100 }

def exBaseRowB : BaseRow :=
  { baseRowDefault with codigo := "1", descripcion := "D", almacen := "B", cantidad := 10, costo_unitario := 30, valor_total := 300 }

/-- Concrete hash function for witnesses. -/
def exHash (s : String) : String := String.append "h" s

/-- The unique-constraint key of `InventoryRecord.Meta.unique_together`
(`models.py` line 121): document type, document number, product, batch,
cost center. -/
def recKey (r : InventoryRecord) : Option String × Option String × Nat × Nat × Option String :=
  (r.document_type, r.document_number, r.productId, r.batchId, r.cost_center)

/-- Whether inserting `r` hits the unique constraint against a present row
`x`.  The backend is PostgreSQL (the views use
`django.contrib.postgres.aggregates.StringAgg`), whose unique constraints
compare columns with `=`, so a SQL `NULL` (`none`) in any nullable key
column — `document_type`, `document_number`, `cost_center` — never equals
anything and never conflicts. -/
def sqlConflict (x r : InventoryRecord) : Bool :=
  decide (recKey x = recKey r ∧ ¬ r.document_type = none ∧
    ¬ r.document_number = none ∧ ¬ r.cost_center = none)

/-- `bulk_create(..., ignore_conflicts=True)` on `InventoryRecord`
(`views.py` lines 785 and 811): rows are inserted in order and a row is
silently dropped exactly when `ON CONFLICT DO NOTHING` fires, that is, when
a row already present carries the same unique-constraint key with every
nullable key column non-`NULL`. -/
def bulkCreateRecords (db : List InventoryRecord) : List InventoryRecord → List InventoryRecord
  | [] => db
  | r :: rs =>
    if db.any (fun x => sqlConflict x r) then bulkCreateRecords db rs
    else bulkCreateRecords (db ++ [r]) rs

/-- The accumulation state of the `_process_update_file` row loop: the
persisted ledger, the queued not-yet-flushed rows, and the processed /
duplicate / error counters. -/
structure Loop where
  records : List InventoryRecord
  queue : List InventoryRecord
  created : Nat
  dups : Nat
  errors : Nat
deriving DecidableEq

/-- Flushing the queued rows into the ledger (`views.py` lines 783-796 and
809-820; the non-failing bulk path). -/
def flushQueue (l : Loop) : Loop :=
  { l with records := bulkCreateRecords l.records l.queue, queue := [] }

/-- The document-type half of the document split of `views.py` lines 702-707. -/
def docTypeOf (row : UpdateRow) : Option String :=
  if 2 ≤ row.documento.data.length then some (String.mk (row.documento.data.take 2)) else none

/-- The document-number half of the document split of `views.py` lines 702-707. -/
def docNumberOf (row : UpdateRow) : Option String :=
  if 2 ≤ row.documento.data.length then some (String.mk (row.documento.data.drop 2)) else none

/-- The cross-batch duplicate query of `views.py` lines 747-754: an existing
ledger row matching document type, document number, product, cost center,
date and warehouse. -/
def dupMatch (dt dn : Option String) (pid : Nat) (cc : Option String) (d : Nat)
    (wh : String) (r : InventoryRecord) : Bool :=
  decide (r.document_type = dt ∧ r.document_number = dn ∧ r.productId = pid ∧
    r.cost_center = cc ∧ r.date = d ∧ r.warehouse = wh)

/-- The ledger row built from one update-file row (`views.py` lines
709-775): net quantity entries minus exits, total falling back to
|quantity| times the unit cost, unit cost derived from the total when the
stated unit cost is zero, mapped warehouse and category, and the trimmed
cost center. -/
def mkRecFromRow (mapLoc mapCat : String → String) (batchId : Nat) (product : Product)
    (date : Nat) (row : UpdateRow) : InventoryRecord :=
  let quantity := row.entradas - row.salidas
  let unit_cost0 := row.unitario
  let total := if row.total ≠ 0 then row.total else |quantity| * unit_cost0
  let unit_cost :=
    if unit_cost0 = 0 ∧ total ≠ 0 ∧ quantity ≠ 0 then total / |quantity| else unit_cost0
  { batchId := batchId, productId := product.id,
    warehouse := mapLoc (stripChars row.localizacion), date := date,
    document_type := docTypeOf row, document_number := docNumberOf row,
    quantity := quantity, unit_cost := unit_cost, total := total,
    category := mapCat (stripChars row.categoria), final_quantity := row.cantidad,
    cost_center := row.cost_center.map stripChars }

/-- One iteration of the `_process_update_file` row loop
(`views.py` lines 687-806): resolve the product, split the document, compute
the net quantity (entries minus exits) and skip the row when it is zero,
derive the unit cost, parse the date, run the cross-batch duplicate check,
and otherwise queue the new ledger row, flushing every 500 queued rows. -/
def stepRow (mapLoc mapCat : String → String) (batchId : Nat) (prods : List Product)
    (l : Loop) (row : UpdateRow) : Loop :=
  let codigo := row.item
  if codigo = "" then l
  else
    match prods.find? (fun p => p.code == codigo) with
    | none => { l with errors := l.errors + 1 }
    | some product =>
      let doc_type := docTypeOf row
      let doc_number := docNumberOf row
      let quantity := row.entradas - row.salidas
      if quantity = 0 then l
      else
        let unit_cost0 := row.unitario
        let total := if row.total ≠ 0 then row.total else |quantity| * unit_cost0
        let unit_cost :=
          if unit_cost0 = 0 ∧ total ≠ 0 ∧ quantity ≠ 0 then total / |quantity| else unit_cost0
        match parseYMD row.fecha with
        | none => { l with errors := l.errors + 1 }
        | some date =>
          let warehouse := mapLoc (stripChars row.localizacion)
          let category := mapCat (stripChars row.categoria)
          let cost_center := row.cost_center.map stripChars
          if l.records.any (dupMatch doc_type doc_number product.id cost_center date warehouse) then
            { l with dups := l.dups + 1 }
          else
            let newRec := mkRecFromRow mapLoc mapCat batchId product date row
            let l1 := { l with queue := l.queue ++ [newRec], created := l.created + 1 }
            if 500 ≤ l1.queue.length then flushQueue l1 else l1

/-- Stub-product creation for codes absent from the partition
(`views.py` lines 658-684): each missing code becomes a product with zero
initial balance and cost, taking description and category from the code's
first row.  Returns the created products and the next free product id. -/
def createStubs (mapCat : String → String) (rows : List UpdateRow) (pid : Nat) :
    List String → List Product × Nat
  | [] => ([], pid)
  | c :: cs =>
    match rows.find? (fun r => r.item == c) with
    | none => createStubs mapCat rows pid cs
    | some row0 =>
      let p : Product :=
        { id := pid, code := c, description := stripChars row0.desc_item,
          group := mapCat (stripChars row0.categoria), initial_balance := 0, initial_unit_cost := 0 }
      let rest := createStubs mapCat rows (pid + 1) cs
      (p :: rest.1, rest.2)

/-- The outcome of `_process_update_file`: the product table (with stubs
appended), the ledger, the next free product id, and the returned
(records created, duplicates) counters plus the error counter. -/
structure UpdResult where
  products : List Product
  records : List InventoryRecord
  nextProductId : Nat
  created : Nat
  dups : Nat
  errors : Nat
deriving DecidableEq

/-- `_process_update_file` (`views.py` lines 608-823).  Codes are trimmed and
stripped of leading zeros, stub products are created for codes not in the
partition, every row runs through `stepRow`, and the remaining queued rows
are flushed at the end. -/
def process_update_file (mapLoc mapCat : String → String) (batchId : Nat)
    (prods0 : List Product) (recs0 : List InventoryRecord) (nextPid0 : Nat)
    (rows0 : List UpdateRow) : UpdResult :=
  let rows := rows0.map (fun r => { r with item := lstripZeros (stripChars r.item) })
  let codes := firstUniquesAux [] (rows.map (fun r => r.item))
  let missing := codes.filter (fun c => (prods0.find? (fun p => p.code == c)).isNone)
  let stubs := createStubs mapCat rows nextPid0 missing
  let prods := prods0 ++ stubs.1
  let l0 : Loop := { records := recs0, queue := [], created := 0, dups := 0, errors := 0 }
  let l1 := rows.foldl (stepRow mapLoc mapCat batchId prods) l0
  let l2 := flushQueue l1
  { products := prods, records := l2.records, nextProductId := stubs.2,
    created := l2.created, dups := l2.dups, errors := l2.errors }

/-- Concrete witness data: a product, a matching ledger record and rows. -/
def exProduct : Product :=
  { id := 0, code := "7", description := "D", group := "G", initial_balance := 3, initial_unit_cost := 2 }

def exRecord : InventoryRecord :=
  { batchId := 0, productId := 0, warehouse := "W", date := 20240105,
    document_type := some "EA", document_number := some "10", quantity := 5,
    unit_cost := 1, total := 5, category := "G", final_quantity := 5,
    cost_center := some "C" }

def exRowZero : UpdateRow :=
  { item := "2", desc_item := "N", localizacion := "W", categoria := "G",
    fecha := "2024-01-05", documento := "EA10", entradas := 5, salidas := 5,
    unitario := 1, total := 5, cantidad := 5, cost_center := some "C" }

def exRowDup : UpdateRow :=
  { item := "007", desc_item := "D", localizacion := "W", categoria := "G",
    fecha := "2024-01-05", documento := "EA10", entradas := 5, salidas := 0,
    unitario := 1, total := 5, cantidad := 5, cost_center := some "C" }

/-- The full re-aggregation of `views.py` lines 1056-1058: the signed sum of
the quantities of all of a product's ledger rows. -/
def total_movements (recs : List InventoryRecord) (pid : Nat) : ℚ :=
  ((recs.filter (fun r => r.productId == pid)).map (fun r => r.quantity)).sum

/-- Current stock (`views.py` line 1059): initial balance plus the signed sum
of all the product's ledger quantities. -/
def current_stock (recs : List InventoryRecord) (p : Product) : ℚ :=
  p.initial_balance + total_movements recs p.id

/-- The specification-side sum: over every ledger row, its quantity when it
belongs to the product and zero otherwise (all warehouses, all dates). -/
def ledger_quantity_sum (recs : List InventoryRecord) (pid : Nat) : ℚ :=
  (recs.map (fun r => if r.productId = pid then r.quantity else 0)).sum

/-- Python `max(records, key=date)`: the first record of maximal date
(`views.py` line 1065; also the record selected by
`order_by('-date').values('id')[:1]` at lines 977-985). -/
def maxByDate (r : InventoryRecord) : List InventoryRecord → InventoryRecord
  | [] => r
  | x :: xs => if r.date < x.date then maxByDate x xs else maxByDate r xs

/-- The distinct warehouses of a product's ledger rows, in first-appearance
order. -/
def warehousesOf (recs : List InventoryRecord) : List String :=
  firstUniquesAux [] (recs.map (fun r => r.warehouse))

/-- The latest (by date) ledger row of one warehouse, if any
(`views.py` lines 977-985). -/
def latestInWarehouse (recs : List InventoryRecord) (w : String) : Option InventoryRecord :=
  match recs.filter (fun r => r.warehouse == w) with
  | [] => none
  | x :: xs => some (maxByDate x xs)

/-- `last_records` of `views.py` lines 977-994: for each warehouse of the
product, its most recent ledger row by date. -/
def last_records (recs : List InventoryRecord) : List InventoryRecord :=
  (warehousesOf recs).filterMap (latestInWarehouse recs)

/-- Current unit cost (`views.py` lines 1061-1070): among the per-warehouse
latest rows, the unit cost of the most recent one with positive unit cost,
falling back to the initial unit cost. -/
def current_unit_cost (recs : List InventoryRecord) (init : ℚ) : ℚ :=
  let lr := last_records recs
  if lr.isEmpty then init
  else
    match lr.filter (fun r => decide (0 < r.unit_cost)) with
    | [] => init
    | x :: xs => (maxByDate x xs).unit_cost

/-- The claim's reading of the current unit cost: the unit cost of the most
recent ledger row (by date) with a non-zero unit cost, over all of the
product's rows, falling back to the initial unit cost when no such row
exists. -/
def spec_current_unit_cost (recs : List InventoryRecord) (init : ℚ) : ℚ :=
  match recs.filter (fun r => decide (¬ r.unit_cost = 0)) with
  | [] => init
  | x :: xs => (maxByDate x xs).unit_cost

/-- Counterexample records for the current-unit-cost claim: one warehouse
whose older row has unit cost 10 and whose newest row has unit cost 0. -/
def exCostRecEarly : InventoryRecord :=
  { batchId := 0, productId := 0, warehouse := "W", date := 20240101,
    document_type := some "EA", document_number := some "1", quantity := 5,
    unit_cost := 10, total := 50, category := "", final_quantity := 5,
    cost_center := none }

def exCostRecLate : InventoryRecord :=
  { batchId := 0, productId := 0, warehouse := "W", date := 20240201,
    document_type := some "SA", document_number := some "2", quantity := -2,
    unit_cost := 0, total := 0, category := "", final_quantity := 3,
    cost_center := none }

/-- The `year` of a `YYYYMMDD`-encoded date. -/
def yearOf (d : Nat) : Nat := d / 10000

/-- The `month` of a `YYYYMMDD`-encoded date. -/
def monthOf (d : Nat) : Nat := d / 100 % 100

/-- The pre-current-year quantity sum of a product
(`views.py` lines 996-1005). -/
def pre_year_sum (recs : List InventoryRecord) (pid : Nat) (y : Nat) : ℚ :=
  ((recs.filter (fun r => r.productId == pid && decide (yearOf r.date < y))).map
    (fun r => r.quantity)).sum

/-- `balance_pre_year` (`views.py` line 1079): initial balance plus all
movement quantities dated before the current year. -/
def balance_pre_year (recs : List InventoryRecord) (pid : Nat) (y : Nat) (init : ℚ) : ℚ :=
  init + pre_year_sum recs pid y

/-- The net movement quantity of one month of the current year
(`views.py` lines 1007-1021; months without movement contribute zero). -/
def monthly_total (recs : List InventoryRecord) (pid : Nat) (y m : Nat) : ℚ :=
  ((recs.filter (fun r => r.productId == pid && (yearOf r.date == y) &&
    (monthOf r.date == m))).map (fun r => r.quantity)).sum

/-- The running-balance loop of `views.py` lines 1083-1087: starting from the
pre-year balance, add each month's net quantity and collect the running
balance, for `k` successive months starting at month `m`. -/
def balancesAux (mv : Nat → ℚ) (running : ℚ) (m : Nat) : Nat → List ℚ
  | 0 => []
  | k + 1 => (running + mv m) :: balancesAux mv (running + mv m) (m + 1) k

/-- The 12 monthly running balances of the current year. -/
def monthly_balances (recs : List InventoryRecord) (pid : Nat) (y : Nat) (init : ℚ) : List ℚ :=
  balancesAux (monthly_total recs pid y) (balance_pre_year recs pid y init) 1 12

/-- Python `len(set(l)) == 1` on the balance list. -/
def allSameBool (l : List ℚ) : Bool :=
  match l with
  | [] => false
  | b :: bs => bs.all (fun x => decide (x = b))

/-- The rotation classification of `views.py` lines 1089-1102, evaluated in
source order on the 12 monthly balances and the pre-year balance. -/
def classify_rotation (balances : List ℚ) (pre : ℚ) : String :=
  let allZero := balances.all (fun b => decide (b = 0))
  if allZero && decide (pre = 0) then "Activo"
  else if allZero && decide (0 < pre) then "Obsoleto"
  else if allSameBool balances && decide (0 < balances.headD 0) then "Obsoleto"
  else if decide (3 ≤ balances.length) && allSameBool (balances.drop (balances.length - 3)) &&
    decide (0 < balances.getLastD 0) then "Estancado"
  else "Activo"

/-- The claim's ordered classification rules, written as predicates: (a)
Activo when all balances are zero and the pre-year balance is zero; (b)
Obsoleto when all balances are zero and the pre-year balance is positive; (c)
Obsoleto when all balances are identical and that value is positive; (d)
Estancado when the last three balances are identical and positive; (e) Activo
otherwise. -/
def rotation_rules (balances : List ℚ) (pre : ℚ) : String :=
  let tail3 := balances.drop (balances.length - 3)
  if (∀ b ∈ balances, b = 0) ∧ pre = 0 then "Activo"
  else if (∀ b ∈ balances, b = 0) ∧ 0 < pre then "Obsoleto"
  else if ¬ balances = [] ∧ (∀ b ∈ balances, b = balances.headD 0) ∧
    0 < balances.headD 0 then "Obsoleto"
  else if 3 ≤ balances.length ∧ (¬ tail3 = [] ∧ ∀ b ∈ tail3, b = tail3.headD 0) ∧
    0 < balances.getLastD 0 then "Estancado"
  else "Activo"

/-- The rotation classification of one product from its ledger
(`views.py` lines 1078-1102): computed from the pre-year balance and the 12
monthly running balances of year `y`. -/
def rotation_for_product (recs : List InventoryRecord) (pid : Nat) (y : Nat) (init : ℚ) : String :=
  classify_rotation (monthly_balances recs pid y init) (balance_pre_year recs pid y init)

/-- Example ledger rows: a pre-year exit consuming the whole initial balance
of 100, and one consuming only half of it. -/
def exPreRecFull : InventoryRecord :=
  { batchId := 0, productId := 0, warehouse := "W", date := 20240310,
    document_type := some "SA", document_number := some "9", quantity := -100,
    unit_cost := 0, total := 0, category := "", final_quantity := 0,
    cost_center := none }

def exPreRecHalf : InventoryRecord :=
  { batchId := 0, productId := 0, warehouse := "W", date := 20240310,
    document_type := some "SA", document_number := some "9", quantity := -50,
    unit_cost := 0, total := 0, category := "", final_quantity := 50,
    cost_center := none }

/-- `bulk_create(..., ignore_conflicts=True)` on `Product`: the unique key of
`Product.Meta.unique_together` within one partition is the code
(`models.py` line 48). -/
def bulkCreateProducts (db : List Product) : List Product → List Product
  | [] => db
  | p :: ps =>
    if db.any (fun x => x.code == p.code) then bulkCreateProducts db ps
    else bulkCreateProducts (db ++ [p]) ps

/-- `bulk_create(..., ignore_conflicts=True)` on `WarehouseDetail`: unique per
(product, warehouse) (`models.py` line 65). -/
def bulkCreateWh (db : List WarehouseDetail) : List WarehouseDetail → List WarehouseDetail
  | [] => db
  | w :: ws =>
    if db.any (fun x => decide (x.productId = w.productId ∧ x.warehouse = w.warehouse)) then
      bulkCreateWh db ws
    else bulkCreateWh (db ++ [w]) ws

/-- Lexicographic comparison of the `(codigo, descripcion, grupo)` group keys
(pandas `groupby` sorts its group keys). -/
def groupKeyLe (a b : String × String × String) : Bool :=
  if a.1 = b.1 then
    (if a.2.1 = b.2.1 then strLe a.2.2 b.2.2 else strLe a.2.1 b.2.1)
  else strLe a.1 b.1

/-- The accumulator of the grouped-row loop of `_process_base_file`
(`views.py` lines 440-443 and 503-548): queued products, in-file processed
codes, the processed counter and the next free product id. -/
structure BaseAcc where
  queued : List Product
  processed : List String
  count : Nat
  pid : Nat

/-- One iteration of the grouped-row loop of `_process_base_file`
(`views.py` lines 503-548): skip empty, already-processed and existing codes,
apply the zero-quantity-but-positive-value repair of lines 516-522, skip
empty descriptions, and queue the product. -/
def baseStep (mapCat : String → String) (existing : List String) (acc : BaseAcc)
    (kg : (String × String × String) × GroupResult) : BaseAcc :=
  let codigo := kg.1.1
  let descripcion := kg.1.2.1
  let grupo := kg.1.2.2
  let g := kg.2
  if codigo = "" ∨ codigo ∈ acc.processed ∨ codigo ∈ existing then acc
  else
    let repaired :=
      if g.cantidad = 0 ∧ 0 < g.valor_total then
        (if 0 < g.costo_unitario then (g.valor_total / g.costo_unitario, g.costo_unitario)
         else (g.valor_total, (1 : ℚ)))
      else (g.cantidad, g.costo_unitario)
    if descripcion = "" then acc
    else
      { queued := acc.queued ++ [{ id := acc.pid, code := codigo, description := descripcion
                                   group := mapCat (stripChars grupo), initial_balance := repaired.1
                                   initial_unit_cost := repaired.2 }]
        processed := acc.processed ++ [codigo], count := acc.count + 1, pid := acc.pid + 1 }

/-- `_process_base_file` (`views.py` lines 421-605): clean the rows, group by
(code, description, group) computing `process_group` per group, queue one
product per new code (500-row chunking collapses to a single
conflict-ignoring insert because the loop never re-reads the product table),
then create one `WarehouseDetail` per raw row whose code resolves to a
product.  Returns the updated state and the processed-products count. -/
def process_base_file (mapCat : String → String) (rows0 : List BaseRow) (db : DB) : DB × Nat :=
  let rows := rows0.map (fun r =>
    { r with codigo := stripChars r.codigo, descripcion := stripChars r.descripcion })
  let rows := rows.filter (fun r => !(r.descripcion == ""))
  let keys := sortByLe groupKeyLe
    (firstUniquesAux [] (rows.map (fun r => (r.codigo, r.descripcion, r.grupo))))
  let grouped := keys.map (fun k =>
    (k, process_group (rows.filter (fun r => (r.codigo, r.descripcion, r.grupo) == k))))
  let existing := db.products.map (fun p => p.code)
  let acc := grouped.foldl (baseStep mapCat existing)
    { queued := [], processed := [], count := 0, pid := db.nextProductId }
  let products1 := bulkCreateProducts db.products acc.queued
  let csorted := sortByLe strLe (firstUniquesAux [] (rows.map (fun r => r.codigo)))
  let whRows := csorted.flatMap (fun c => rows.filter (fun r => r.codigo == c))
  let details := whRows.filterMap (fun r =>
    match products1.find? (fun p => p.code == r.codigo) with
    | some p => some { productId := p.id, warehouse := r.almacen
                       initial_quantity := r.cantidad, initial_value := r.valor_total }
    | none => none)
  let wh1 := bulkCreateWh db.warehouseDetails details
  ({ db with products := products1
             warehouseDetails := wh1
             nextProductId := acc.pid },
   acc.count)

/-- The base-file cleaning done in `update_inventory` before processing
(`views.py` lines 201-205): codes stripped and leading zeros removed. -/
def prep_base_rows (rows : List BaseRow) : List BaseRow :=
  rows.map (fun r => { r with codigo := lstripZeros (stripChars r.codigo) })

/-- An uploaded update file: its name, raw content (for the checksum) and its
parsed, column-normalised rows. -/
structure UploadFile where
  name : String
  content : String
  rows : List UpdateRow

/-- The uploaded base file. -/
structure BaseFileData where
  name : String
  content : String
  rows : List BaseRow

/-- The JSON envelope of `update_inventory`: the `ok` flag, the HTTP status,
and the summary counters. -/
structure UploadResponse where
  ok : Bool
  status : Nat
  base_records : Nat
  update_records : Nat
  total_processed : Nat
deriving DecidableEq

/-- An error envelope with the given HTTP status. -/
def mkErr (s : Nat) : UploadResponse :=
  { ok := false, status := s, base_records := 0, update_records := 0, total_processed := 0 }

/-- The checksum-collision replacement of `views.py` lines 244-253: delete
the prior batch's ledger rows and the batch row itself. -/
def delete_batch_by_checksum (db : DB) (cs : String) : DB :=
  match db.batches.find? (fun b => b.checksum == cs) with
  | some ex =>
    { db with records := db.records.filter (fun r => !(r.batchId == ex.id))
              batches := db.batches.filter (fun b => !(b.id == ex.id)) }
  | none => db

/-- The partition reset before a base import (`views.py` lines 263-266):
delete the partition's ledger rows, then its products (cascading to their
warehouse details). -/
def clear_partition (db : DB) : DB :=
  let pids := db.products.map (fun p => p.id)
  { db with records := db.records.filter (fun r => !(pids.contains r.productId))
            warehouseDetails := db.warehouseDetails.filter (fun w => !(pids.contains w.productId))
            products := [] }

/-- The update-file loop of `views.py` lines 273-384: process each file in
order, accumulating the created and duplicate counters. -/
def run_updates (mapLoc mapCat : String → String) (batchId : Nat) (db : DB) :
    List UploadFile → DB × Nat × Nat
  | [] => (db, 0, 0)
  | f :: fs =>
    let res := process_update_file mapLoc mapCat batchId db.products db.records
      db.nextProductId f.rows
    let db1 := { db with products := res.products
                         records := res.records
                         nextProductId := res.nextProductId }
    let rest := run_updates mapLoc mapCat batchId db1 fs
    (rest.1, res.created + rest.2.1, res.dups + rest.2.2)

/-- The batch finalisation of `views.py` lines 393-398: set the imported and
total row counters and the processed timestamp. -/
def finalize_batch (db : DB) (batchId total rowsTotal : Nat) : DB :=
  { db with batches := db.batches.map (fun b =>
    if b.id == batchId then
      { b with rows_imported := total, rows_total := rowsTotal, processed := true }
    else b) }

/-- The file contents hashed into the upload checksum
(`views.py` lines 222-229): base file first, then the update files. -/
def import_contents (baseFile : Option BaseFileData) (updateFiles : List UploadFile) :
    List String :=
  (match baseFile with | some bf => [bf.content] | none => []) ++
    updateFiles.map (fun u => u.content)

/-- The file names joined into the batch's `file_name`
(`views.py` lines 256-259). -/
def import_names (baseFile : Option BaseFileData) (updateFiles : List UploadFile) :
    List String :=
  (match baseFile with | some bf => [bf.name] | none => []) ++
    updateFiles.map (fun u => u.name)

/-- The cleaned base rows fed to `_process_base_file` (empty when no base
file was uploaded). -/
def import_rows (baseFile : Option BaseFileData) : List BaseRow :=
  match baseFile with | some bf => prep_base_rows bf.rows | none => []

/-- The `ImportBatch` row created at `views.py` lines 256-261: unprocessed,
zero counters. -/
def new_batch_row (id : Nat) (names : List String) (cs : String) : ImportBatch :=
  { id := id
    file_name := if names.isEmpty then "no-files" else String.intercalate " + " names
    checksum := cs, rows_total := 0, rows_imported := 0, processed := false }

/-- Checksum-collision replacement followed by creation of the new batch row
(`views.py` lines 244-261). -/
def stage_batch (db : DB) (cs : String) (names : List String) : DB :=
  let db1 := delete_batch_by_checksum db cs
  { db1 with batches := db1.batches ++ [new_batch_row db1.nextBatchId names cs]
             nextBatchId := db1.nextBatchId + 1 }

/-- Base-file processing (`views.py` lines 263-270): when a base file is
present the partition is cleared and the base importer runs; otherwise the
state passes through with zero base records. -/
def run_base (mapCat : String → String) (baseFile : Option BaseFileData) (db : DB) :
    DB × Nat :=
  match baseFile with
  | some _ => process_base_file mapCat (import_rows baseFile) (clear_partition db)
  | none => (db, 0)

/-- The post-validation pipeline of `update_inventory`
(`views.py` lines 165-411): the order-independent checksum, the
same-checksum batch replacement, batch creation, base processing (after
clearing the partition), the update-file loop, and the zero-imports failure
of lines 386-390 (caught by the handler of line 413 as a 500 error, with no
rollback: the batch row and any stub products stay persisted). -/
def run_import (h mapLoc mapCat : String → String) (db : DB)
    (baseFile : Option BaseFileData) (updateFiles : List UploadFile) :
    UploadResponse × DB :=
  let cs := computeChecksum h (import_contents baseFile updateFiles)
  let batchId := (delete_batch_by_checksum db cs).nextBatchId
  let db2 := stage_batch db cs (import_names baseFile updateFiles)
  let baseOut := run_base mapCat baseFile db2
  let updOut := run_updates mapLoc mapCat batchId baseOut.1 updateFiles
  let total := baseOut.2 + updOut.2.1
  if total = 0 then
    ({ ok := false, status := 500, base_records := baseOut.2,
       update_records := updOut.2.1, total_processed := 0 }, updOut.1)
  else
    ({ ok := true, status := 200, base_records := baseOut.2,
       update_records := updOut.2.1, total_processed := total },
     finalize_batch updOut.1 batchId total (import_rows baseFile).length)

/-- `update_inventory` (`views.py` lines 89-418): the four validations of
lines 138-163, then the checksum/batch/import pipeline of `run_import`. -/
def update_inventory (h mapLoc mapCat : String → String) (db : DB)
    (baseFile : Option BaseFileData) (updateFiles : List UploadFile) :
    UploadResponse × DB :=
  let hasBase := !db.products.isEmpty
  if hasBase && baseFile.isSome then (mkErr 400, db)
  else if !hasBase && baseFile.isNone then (mkErr 400, db)
  else if !updateFiles.isEmpty && !hasBase then (mkErr 400, db)
  else if baseFile.isNone && updateFiles.isEmpty then (mkErr 400, db)
  else run_import h mapLoc mapCat db baseFile updateFiles

/-- The empty partition state. -/
def emptyDB : DB :=
  { products := [], records := [], batches := [], warehouseDetails := [],
    nextBatchId := 0, nextProductId := 0 }

/-- States reachable from a start state by any sequence of uploads (base
and/or update files), for fixed hash and mapping helpers. -/
inductive ReachableFrom (h mapLoc mapCat : String → String) : DB → DB → Prop
  | refl (db : DB) : ReachableFrom h mapLoc mapCat db db
  | step (db0 db : DB) (baseFile : Option BaseFileData) (updateFiles : List UploadFile) :
      ReachableFrom h mapLoc mapCat db0 db →
      ReachableFrom h mapLoc mapCat db0
        (update_inventory h mapLoc mapCat db baseFile updateFiles).2

/-- A small concrete state with one product and one ledger row. -/
def exDB : DB :=
  { products := [exProduct], records := [exRecord], batches := [],
    warehouseDetails := [], nextBatchId := 1, nextProductId := 1 }

/-- The distinctness the conflict-ignoring insert actually maintains: two
rows never share a unique key all of whose nullable columns are present.
(Rows with a `NULL` document type, document number or cost center are never
deduplicated, because the PostgreSQL constraint treats `NULL`s as
distinct.) -/
def keyNe (a b : InventoryRecord) : Prop :=
  ¬ (recKey a = recKey b ∧ ¬ b.document_type = none ∧
     ¬ b.document_number = none ∧ ¬ b.cost_center = none)

/-- Scenario rows for the conflict-ignoring insert: two rows of one file
equal on (document type, document number, product, cost center) but with
different dates. -/
def exRowPair1 : UpdateRow :=
  { item := "7", desc_item := "D", localizacion := "W", categoria := "G",
    fecha := "2024-01-05", documento := "EA10", entradas := 5, salidas := 0,
    unitario := 1, total := 5, cantidad := 5, cost_center := some "C" }

def exRowPair2 : UpdateRow :=
  { item := "7", desc_item := "D", localizacion := "W", categoria := "G",
    fecha := "2024-01-06", documento := "EA10", entradas := 3, salidas := 0,
    unitario := 1, total := 3, cantidad := 3, cost_center := some "C" }

/-- The single ledger row the scenario persists (from the first row). -/
def exPairRec1 : InventoryRecord :=
  { batchId := 1, productId := 0, warehouse := "W", date := 20240105,
    document_type := some "EA", document_number := some "10", quantity := 5,
    unit_cost := 1, total := 5, category := "G", final_quantity := 5,
    cost_center := some "C" }

/-- Scenario rows with no cost-center column (`row.get('cost_center')` is
`None` when the flexible read path finds no such column): same document and
product, different dates. -/
def exRowNull1 : UpdateRow :=
  { item := "7", desc_item := "D", localizacion := "W", categoria := "G",
    fecha := "2024-01-05", documento := "EA10", entradas := 5, salidas := 0,
    unitario := 1, total := 5, cantidad := 5, cost_center := none }

def exRowNull2 : UpdateRow :=
  { item := "7", desc_item := "D", localizacion := "W", categoria := "G",
    fecha := "2024-01-06", documento := "EA10", entradas := 3, salidas := 0,
    unitario := 1, total := 3, cantidad := 3, cost_center := none }

/-- The two ledger rows the `NULL`-cost-center scenario persists. -/
def exNullRec1 : InventoryRecord :=
  { batchId := 1, productId := 0, warehouse := "W", date := 20240105,
    document_type := some "EA", document_number := some "10", quantity := 5,
    unit_cost := 1, total := 5, category := "G", final_quantity := 5,
    cost_center := none }

def exNullRec2 : InventoryRecord :=
  { batchId := 1, productId := 0, warehouse := "W", date := 20240106,
    document_type := some "EA", document_number := some "10", quantity := 3,
    unit_cost := 1, total := 3, category := "G", final_quantity := 3,
    cost_center := none }

/-- A concrete base upload for the C10 witness. -/
def exBaseFileData : BaseFileData :=
  { name := "base.xlsx", content := "basebytes", rows := [exBaseRowA, exBaseRowB] }

/-- The starting state of the zero-import scenario: one product, no ledger
rows, no batches. -/
def exDB2 : DB :=
  { products := [exProduct], records := [], batches := [], warehouseDetails := [],
    nextBatchId := 5, nextProductId := 3 }

/-- An update file whose single row has zero net quantity and an unknown
product code. -/
def exUpdFileZero : UploadFile :=
  { name := "u.xls", content := "uc", rows := [exRowZero] }

/-- The stub product the scenario creates for the unknown code. -/
def exStub2 : Product :=
  { id := 3, code := "2", description := "N", group := "G",
    initial_balance := 0, initial_unit_cost := 0 }

/-- The scenario's upload checksum. -/
def exCS2 : String := computeChecksum exHash (import_contents none [exUpdFileZero])

/-- The batch row the scenario persists (never finalized). -/
def exBatch2 : ImportBatch := new_batch_row 5 (import_names none [exUpdFileZero]) exCS2

/-- The scenario state after batch staging. -/
def exDB3 : DB :=
  { products := [exProduct], records := [], batches := [exBatch2], warehouseDetails := [],
    nextBatchId := 6, nextProductId := 3 }

/-- The scenario's final state: the batch row and the stub product persist. -/
def exDB4 : DB :=
  { products := [exProduct, exStub2], records := [], batches := [exBatch2],
    warehouseDetails := [], nextBatchId := 6, nextProductId := 4 }

/-- C4: the batch fingerprint is order-independent: it hashes the sorted
concatenation of the per-file hashes, so the fingerprint of the upload
`[A, B]` equals the fingerprint of the upload `[B, A]`, for any hash
function and any two file contents. -/
theorem c4_fingerprint_order_independent (h : String → String) (A B : String) :
    computeChecksum h [A, B] = computeChecksum h [B, A] := by
  have key : sortByLe strLe [h A, h B] = sortByLe strLe [h B, h A] := by
    by_cases hab : h A ≤ h B
    · by_cases hba : h B ≤ h A
      · have : h A = h B := le_antisymm hab hba
        rw [this]
      · simp [sortByLe, insertLe, strLe, hab, hba]
    · have hba : h B ≤ h A := (le_total (h A) (h B)).resolve_left hab
      simp [sortByLe, insertLe, strLe, hab, hba]
  simp only [computeChecksum, List.map, List.isEmpty]
  rw [key]

/-- C6: the base importer's unit cost for a group of rows sharing
(code, description, group) is the summed total value divided by the summed
quantity, with the first row's unit cost as fallback when the summed quantity
is zero; on the example rows (qty 10, value 100) and (qty 10, value 300) the
grouped quantity is 20 and the weighted unit cost is 20. -/
theorem c6_weighted_unit_cost :
    (∀ (r0 : BaseRow) (rows : List BaseRow),
      (process_group (r0 :: rows)).costo_unitario =
        (if ((r0 :: rows).map (fun r => r.cantidad)).sum = 0 then r0.costo_unitario
         else ((r0 :: rows).map (fun r => r.valor_total)).sum /
              ((r0 :: rows).map (fun r => r.cantidad)).sum)) ∧
    (process_group [exBaseRowA, exBaseRowB]).cantidad = 20 ∧
    (process_group [exBaseRowA, exBaseRowB]).costo_unitario = 20 := by
  refine ⟨?_, by norm_num [process_group, exBaseRowA, exBaseRowB, baseRowDefault],
    by norm_num [process_group, exBaseRowA, exBaseRowB, baseRowDefault]⟩
  intro r0 rows
  by_cases hq : ((r0 :: rows).map (fun r => r.cantidad)).sum = 0
  · simp [process_group, hq]
  · simp [process_group, hq]

/-- Witness for C4 at concrete inputs. -/
theorem c4_fingerprint_order_independent_witness :
    computeChecksum exHash ["a", "b"] = computeChecksum exHash ["b", "a"] :=
  c4_fingerprint_order_independent exHash "a" "b"

/-- Witness for C6: the concrete weighted-cost example. -/
theorem c6_weighted_unit_cost_witness :
    (process_group [exBaseRowA, exBaseRowB]).costo_unitario = 20 :=
  c6_weighted_unit_cost.2.2

/-- A conflict-ignoring bulk insert only ever appends to the table. -/
theorem bulkCreateRecords_append (q db : List InventoryRecord) :
    ∃ a, bulkCreateRecords db q = db ++ a := by
  induction q generalizing db with
  | nil => exact ⟨[], by simp [bulkCreateRecords]⟩
  | cons r rs ih =>
    by_cases hc : db.any (fun x => sqlConflict x r) = true
    · obtain ⟨a, ha⟩ := ih db
      exact ⟨a, by simp [bulkCreateRecords, hc, ha]⟩
    · obtain ⟨a, ha⟩ := ih (db ++ [r])
      refine ⟨r :: a, ?_⟩
      have : bulkCreateRecords db (r :: rs) = bulkCreateRecords (db ++ [r]) rs := by
        simp [bulkCreateRecords, hc]
      rw [this, ha, List.append_assoc]
      simp

/-- A queue flush only ever appends to the persisted ledger. -/
theorem flushQueue_records (l : Loop) : ∃ a, (flushQueue l).records = l.records ++ a :=
  bulkCreateRecords_append l.queue l.records

/-- One row-loop step only ever appends to the persisted ledger. -/
theorem stepRow_records (mL mC : String → String) (b : Nat) (prods : List Product)
    (l : Loop) (row : UpdateRow) :
    ∃ a, (stepRow mL mC b prods l row).records = l.records ++ a := by
  unfold stepRow
  by_cases h0 : row.item = ""
  · exact ⟨[], by simp [h0]⟩
  · simp only [h0, if_false]
    cases hf : prods.find? (fun p => p.code == row.item) with
    | none => exact ⟨[], by simp⟩
    | some p =>
      simp only
      by_cases hq : row.entradas - row.salidas = 0
      · exact ⟨[], by simp [hq]⟩
      · simp only [hq, if_false]
        cases hd : parseYMD row.fecha with
        | none => exact ⟨[], by simp⟩
        | some d =>
          simp only
          by_cases hdup : l.records.any (dupMatch (docTypeOf row) (docNumberOf row) p.id
              (row.cost_center.map stripChars) d (mL (stripChars row.localizacion))) = true
          · exact ⟨[], by simp [hdup]⟩
          · simp only [hdup, if_false]
            by_cases hlen : 500 ≤ l.queue.length + 1
            · simp only [List.length_append, List.length_singleton, hlen, if_true]
              exact flushQueue_records _
            · simp only [List.length_append, List.length_singleton, hlen, if_false]
              exact ⟨[], by simp⟩

/-- The whole row loop only ever appends to the persisted ledger. -/
theorem foldRows_records (mL mC : String → String) (b : Nat) (prods : List Product)
    (rows : List UpdateRow) (l : Loop) :
    ∃ a, (rows.foldl (stepRow mL mC b prods) l).records = l.records ++ a := by
  induction rows generalizing l with
  | nil => exact ⟨[], by simp⟩
  | cons r rs ih =>
    obtain ⟨a1, ha1⟩ := stepRow_records mL mC b prods l r
    obtain ⟨a2, ha2⟩ := ih (stepRow mL mC b prods l r)
    exact ⟨a1 ++ a2, by simp [ha2, ha1]⟩

/-- Stub products carry zero initial balance and cost and a code satisfying
whatever property all the input codes satisfy. -/
theorem createStubs_mem (mC : String → String) (rows : List UpdateRow)
    (P : String → Prop) (cs : List String) (pid : Nat)
    (hP : ∀ c ∈ cs, P c) :
    ∀ q ∈ (createStubs mC rows pid cs).1,
      q.initial_balance = 0 ∧ q.initial_unit_cost = 0 ∧ P q.code := by
  induction cs generalizing pid with
  | nil => intro q hq; simp [createStubs] at hq
  | cons c cs ih =>
    intro q hq
    unfold createStubs at hq
    cases hf : rows.find? (fun r => r.item == c) with
    | none =>
      rw [hf] at hq
      exact ih pid (fun x hx => hP x (List.mem_cons_of_mem _ hx)) q hq
    | some row0 =>
      rw [hf] at hq
      simp only [List.mem_cons] at hq
      rcases hq with hq | hq
      · subst hq
        exact ⟨rfl, rfl, hP c (List.mem_cons_self _ _)⟩
      · exact ih (pid + 1) (fun x hx => hP x (List.mem_cons_of_mem _ hx)) q hq

/-- C9: processing an update file never modifies any attribute of a product
already in the partition: the product table afterwards is the old table with
stub products appended, the ledger is the old ledger with new rows appended,
and every stub has zero initial balance and cost and a code that no
pre-existing product carries. -/
theorem c9_update_preserves_products (mL mC : String → String) (b : Nat)
    (prods : List Product) (recs : List InventoryRecord) (pid : Nat)
    (rows : List UpdateRow) :
    ∃ stubs added,
      (process_update_file mL mC b prods recs pid rows).products = prods ++ stubs ∧
      (process_update_file mL mC b prods recs pid rows).records = recs ++ added ∧
      ∀ q ∈ stubs, q.initial_balance = 0 ∧ q.initial_unit_cost = 0 ∧
        ∀ p ∈ prods, ¬ p.code = q.code := by
  classical
  unfold process_update_file
  simp only
  set rows1 := rows.map (fun r => { r with item := lstripZeros (stripChars r.item) }) with hrows1
  set missing := (firstUniquesAux [] (rows1.map (fun r => r.item))).filter
    (fun c => (prods.find? (fun p => p.code == c)).isNone) with hmissing
  refine ⟨(createStubs mC rows1 pid missing).1, ?_⟩
  have hmem : ∀ c ∈ missing, ∀ p ∈ prods, ¬ p.code = c := by
    intro c hcm p hp
    have := List.of_mem_filter hcm
    have hnone : prods.find? (fun q => q.code == c) = none :=
      Option.isNone_iff_eq_none.mp this
    have := List.find?_eq_none.mp hnone p hp
    simpa using this
  obtain ⟨a1, ha1⟩ := foldRows_records mL mC b
    (prods ++ (createStubs mC rows1 pid missing).1) rows1
    { records := recs, queue := [], created := 0, dups := 0, errors := 0 }
  obtain ⟨a2, ha2⟩ := bulkCreateRecords_append
    ((rows1.foldl (stepRow mL mC b (prods ++ (createStubs mC rows1 pid missing).1))
      { records := recs, queue := [], created := 0, dups := 0, errors := 0 }).queue)
    ((rows1.foldl (stepRow mL mC b (prods ++ (createStubs mC rows1 pid missing).1))
      { records := recs, queue := [], created := 0, dups := 0, errors := 0 }).records)
  refine ⟨a1 ++ a2, rfl, ?_, ?_⟩
  · simp only [flushQueue]
    rw [ha2, ha1, List.append_assoc]
  · intro q hq
    obtain ⟨h1, h2, h3⟩ := createStubs_mem mC rows1
      (fun c => ∀ p ∈ prods, ¬ p.code = c) missing pid hmem q hq
    exact ⟨h1, h2, h3⟩

/-- A row whose net quantity (entries minus exits) is zero never changes the
ledger, the queue or the created counter: the loop skips it before any
insertion is attempted. -/
theorem stepRow_zero (mL mC : String → String) (b : Nat) (prods : List Product)
    (l : Loop) (row : UpdateRow) (h : row.entradas - row.salidas = 0) :
    stepRow mL mC b prods l row = l ∨
    stepRow mL mC b prods l row = { l with errors := l.errors + 1 } := by
  unfold stepRow
  by_cases h0 : row.item = ""
  · exact Or.inl (by simp [h0])
  · simp only [h0, if_false]
    cases hf : prods.find? (fun p => p.code == row.item) with
    | none => exact Or.inr (by simp)
    | some p => exact Or.inl (by simp [h])

/-- Processing a one-row batch whose row has zero net quantity leaves the
ledger untouched and creates nothing. -/
theorem singleRowFlush_zero (mL mC : String → String) (b : Nat) (prods : List Product)
    (recs : List InventoryRecord) (row1 : UpdateRow)
    (h : row1.entradas - row1.salidas = 0) :
    (flushQueue (stepRow mL mC b prods
      { records := recs, queue := [], created := 0, dups := 0, errors := 0 } row1)).records = recs ∧
    (flushQueue (stepRow mL mC b prods
      { records := recs, queue := [], created := 0, dups := 0, errors := 0 } row1)).created = 0 := by
  rcases stepRow_zero mL mC b prods
      { records := recs, queue := [], created := 0, dups := 0, errors := 0 } row1 h with hs | hs <;>
    rw [hs] <;> exact ⟨by simp [flushQueue, bulkCreateRecords], by simp [flushQueue]⟩

/-- C5: for every update-file row the importer computes the net quantity as
entries minus exits and never creates a ledger row when that net quantity is
exactly zero, regardless of the row's other field values: a one-row file with
zero net quantity leaves the ledger unchanged and reports zero created
records. -/
theorem c5_zero_net_row (mL mC : String → String) (b : Nat) (prods : List Product)
    (recs : List InventoryRecord) (pid : Nat) (row : UpdateRow)
    (h : row.entradas - row.salidas = 0) :
    (process_update_file mL mC b prods recs pid [row]).records = recs ∧
    (process_update_file mL mC b prods recs pid [row]).created = 0 := by
  simp only [process_update_file, List.map_cons, List.map_nil, List.foldl_cons, List.foldl_nil]
  exact singleRowFlush_zero mL mC b _ recs _ h

/-- Witness for C5: a row with entries 5 and exits 5 produces no ledger row. -/
theorem c5_zero_net_row_witness :
    exRowZero.entradas - exRowZero.salidas = 0 ∧
    ((process_update_file id id 1 [exProduct] [exRecord] 1 [exRowZero]).records = [exRecord] ∧
     (process_update_file id id 1 [exProduct] [exRecord] 1 [exRowZero]).created = 0) :=
  ⟨by norm_num [exRowZero], c5_zero_net_row id id 1 [exProduct] [exRecord] 1 exRowZero
    (by norm_num [exRowZero])⟩

/-- A row that reaches the duplicate check and matches an existing ledger
record (on document type, document number, product, cost center, date and
warehouse) only increments the duplicate counter. -/
theorem stepRow_dup (mL mC : String → String) (b : Nat) (prods : List Product)
    (l : Loop) (row1 : UpdateRow) (p : Product) (d : Nat)
    (h0 : ¬ row1.item = "")
    (hf : prods.find? (fun q => q.code == row1.item) = some p)
    (hq : ¬ row1.entradas - row1.salidas = 0)
    (hd : parseYMD row1.fecha = some d)
    (hdup : l.records.any (dupMatch (docTypeOf row1) (docNumberOf row1) p.id
      (row1.cost_center.map stripChars) d (mL (stripChars row1.localizacion))) = true) :
    stepRow mL mC b prods l row1 = { l with dups := l.dups + 1 } := by
  unfold stepRow
  simp only [h0, if_false, hf]
  simp only [hq, if_false, hd]
  simp [hdup]

/-- C3: before inserting a ledger row the importer looks for an existing
record across all batches matching (document type, document number, product,
cost center, date, warehouse); on a match it counts a duplicate and skips the
row: a one-row update file whose row matches an existing record on that
six-field key reports one duplicate, zero created rows, and leaves the ledger
and the product table unchanged. -/
theorem c3_duplicate_suppression (mL mC : String → String) (b : Nat)
    (prods : List Product) (recs : List InventoryRecord) (pid : Nat)
    (row : UpdateRow) (p : Product) (c : String) (d : Nat)
    (hc : c = lstripZeros (stripChars row.item))
    (hne : ¬ c = "")
    (hfind : prods.find? (fun q => q.code == c) = some p)
    (hq : ¬ row.entradas - row.salidas = 0)
    (hd : parseYMD row.fecha = some d)
    (hdup : recs.any (dupMatch (docTypeOf row) (docNumberOf row) p.id
      (row.cost_center.map stripChars) d (mL (stripChars row.localizacion))) = true) :
    (process_update_file mL mC b prods recs pid [row]).records = recs ∧
    (process_update_file mL mC b prods recs pid [row]).created = 0 ∧
    (process_update_file mL mC b prods recs pid [row]).dups = 1 ∧
    (process_update_file mL mC b prods recs pid [row]).products = prods := by
  subst hc
  have hmiss : (prods.find? (fun q =>
      q.code == ({ row with item := lstripZeros (stripChars row.item) } : UpdateRow).item)).isNone = false := by
    rw [hfind]; rfl
  simp only [process_update_file, List.map_cons, List.map_nil, List.foldl_cons, List.foldl_nil,
    firstUniquesAux, List.not_mem_nil, if_false, List.filter_cons, List.filter_nil, hmiss,
    createStubs, List.append_nil]
  rw [stepRow_dup mL mC b prods { records := recs, queue := [], created := 0, dups := 0, errors := 0 }
    { row with item := lstripZeros (stripChars row.item) } p d hne hfind hq hd hdup]
  refine ⟨?_, rfl, rfl, trivial⟩
  simp [flushQueue, bulkCreateRecords]

/-- Witness for C3: the concrete one-row file matching `exRecord` on the
six-field key (its item "007" normalises to the existing code "7"). -/
theorem c3_duplicate_suppression_witness :
    "7" = lstripZeros (stripChars exRowDup.item) ∧
    ¬ ("7" : String) = "" ∧
    [exProduct].find? (fun q => q.code == "7") = some exProduct ∧
    ¬ exRowDup.entradas - exRowDup.salidas = 0 ∧
    parseYMD exRowDup.fecha = some 20240105 ∧
    [exRecord].any (dupMatch (docTypeOf exRowDup) (docNumberOf exRowDup) exProduct.id
      (exRowDup.cost_center.map stripChars) 20240105 (id (stripChars exRowDup.localizacion))) = true ∧
    ((process_update_file id id 1 [exProduct] [exRecord] 1 [exRowDup]).records = [exRecord] ∧
     (process_update_file id id 1 [exProduct] [exRecord] 1 [exRowDup]).created = 0 ∧
     (process_update_file id id 1 [exProduct] [exRecord] 1 [exRowDup]).dups = 1 ∧
     (process_update_file id id 1 [exProduct] [exRecord] 1 [exRowDup]).products = [exProduct]) := by
  refine ⟨by decide, by decide, by decide, by norm_num [exRowDup], by decide, ?_, ?_⟩
  · decide
  · exact c3_duplicate_suppression id id 1 [exProduct] [exRecord] 1 exRowDup exProduct "7" 20240105
      (by decide) (by decide) (by decide) (by norm_num [exRowDup]) (by decide) (by decide)

/-- The two phrasings of the ledger sum agree. -/
theorem total_movements_eq_ledger_sum (recs : List InventoryRecord) (pid : Nat) :
    total_movements recs pid = ledger_quantity_sum recs pid := by
  unfold total_movements ledger_quantity_sum
  induction recs with
  | nil => simp
  | cons r rs ih =>
    by_cases h : r.productId = pid
    · simp [List.filter_cons, beq_iff_eq, h, ih]
    · simp [List.filter_cons, beq_iff_eq, h, ih]

/-- `maxByDate` returns one of its inputs. -/
theorem maxByDate_mem (l : List InventoryRecord) (r : InventoryRecord) :
    maxByDate r l ∈ r :: l := by
  induction l generalizing r with
  | nil => simp [maxByDate]
  | cons x xs ih =>
    unfold maxByDate
    by_cases hd : r.date < x.date
    · simp only [hd, if_true]
      exact List.mem_cons_of_mem r (ih x)
    · simp only [hd, if_false]
      rcases List.mem_cons.mp (ih r) with h | h
      · rw [h]; exact List.mem_cons_self _ _
      · exact List.mem_cons_of_mem _ (List.mem_cons_of_mem _ h)

/-- `maxByDate` dominates every input date. -/
theorem maxByDate_le (l : List InventoryRecord) (r : InventoryRecord) :
    ∀ x ∈ r :: l, x.date ≤ (maxByDate r l).date := by
  induction l generalizing r with
  | nil =>
    intro x hx
    simp only [List.mem_cons, List.not_mem_nil, or_false] at hx
    rw [hx]; simp [maxByDate]
  | cons a as ih =>
    intro x hx
    unfold maxByDate
    by_cases hd : r.date < a.date
    · simp only [hd, if_true]
      rcases List.mem_cons.mp hx with h | h
      · rw [h]; exact le_trans (le_of_lt hd) (ih a a (List.mem_cons_self _ _))
      · exact ih a x h
    · simp only [hd, if_false]
      rcases List.mem_cons.mp hx with h | h
      · rw [h]; exact ih r r (List.mem_cons_self _ _)
      · rcases List.mem_cons.mp h with h1 | h1
        · rw [h1]; exact le_trans (Nat.le_of_not_lt hd) (ih r r (List.mem_cons_self _ _))
        · exact ih r x (List.mem_cons_of_mem _ h1)

/-- C8 (amended): the reported current unit cost considers only the latest
row of each warehouse: it is the unit cost of a most-recent-by-date
positive-cost row among the per-warehouse latest rows, and it falls back to
the initial unit cost exactly when no per-warehouse latest row has positive
unit cost. -/
theorem c8_unit_cost_amended (recs : List InventoryRecord) (init : ℚ) :
    ((∀ r ∈ last_records recs, ¬ 0 < r.unit_cost) ∧ current_unit_cost recs init = init) ∨
    (∃ r ∈ last_records recs, 0 < r.unit_cost ∧ current_unit_cost recs init = r.unit_cost ∧
      ∀ x ∈ last_records recs, 0 < x.unit_cost → x.date ≤ r.date) := by
  by_cases he : (last_records recs).isEmpty
  · left
    have hnil : last_records recs = [] := List.isEmpty_iff.mp he
    constructor
    · intro r hr; rw [hnil] at hr; simp at hr
    · simp [current_unit_cost, he]
  · cases hf : (last_records recs).filter (fun r => decide (0 < r.unit_cost)) with
    | nil =>
      left
      have hall : ∀ r ∈ last_records recs, ¬ 0 < r.unit_cost := by
        intro r hr hpos
        have hmem : r ∈ (last_records recs).filter (fun r => decide (0 < r.unit_cost)) :=
          List.mem_filter.mpr ⟨hr, by simpa using hpos⟩
        rw [hf] at hmem
        simp at hmem
      exact ⟨hall, by simp [current_unit_cost, he, hf]⟩
    | cons x xs =>
      right
      have hmem : maxByDate x xs ∈ (last_records recs).filter (fun r => decide (0 < r.unit_cost)) := by
        rw [hf]; exact maxByDate_mem xs x
      refine ⟨maxByDate x xs, List.mem_of_mem_filter hmem, ?_, ?_, ?_⟩
      · have := List.of_mem_filter hmem
        simpa using this
      · simp [current_unit_cost, he, hf]
      · intro z hz hpos
        have hzf : z ∈ (last_records recs).filter (fun r => decide (0 < r.unit_cost)) :=
          List.mem_filter.mpr ⟨hz, by simpa using hpos⟩
        rw [hf] at hzf
        exact maxByDate_le xs x z hzf

/-- C8 (counterexample): with one warehouse whose latest row has zero unit
cost, the code reports the fallback initial cost 7, while the claimed rule
(most recent non-zero-cost row over all rows) yields 10 — so the claim fails
at this input. -/
theorem c8_unit_cost_counterexample :
    current_unit_cost [exCostRecEarly, exCostRecLate] 7 = 7 ∧
    spec_current_unit_cost [exCostRecEarly, exCostRecLate] 7 = 10 ∧
    ¬ current_unit_cost [exCostRecEarly, exCostRecLate] 7 =
      spec_current_unit_cost [exCostRecEarly, exCostRecLate] 7 := by
  refine ⟨?_, ?_, ?_⟩ <;>
    norm_num [current_unit_cost, spec_current_unit_cost, last_records, warehousesOf,
      latestInWarehouse, firstUniquesAux, maxByDate, exCostRecEarly, exCostRecLate,
      List.filterMap_cons, List.filterMap_nil, List.filter_cons, List.filter_nil]

/-- Witness instance of the amended C8 characterisation at the counterexample
records. -/
theorem c8_unit_cost_amended_witness :
    ((∀ r ∈ last_records [exCostRecEarly, exCostRecLate], ¬ 0 < r.unit_cost) ∧
      current_unit_cost [exCostRecEarly, exCostRecLate] 7 = 7) ∨
    (∃ r ∈ last_records [exCostRecEarly, exCostRecLate], 0 < r.unit_cost ∧
      current_unit_cost [exCostRecEarly, exCostRecLate] 7 = r.unit_cost ∧
      ∀ x ∈ last_records [exCostRecEarly, exCostRecLate], 0 < x.unit_cost → x.date ≤ r.date) :=
  c8_unit_cost_amended [exCostRecEarly, exCostRecLate] 7

/-- `allSameBool` says: the list is non-empty and all its entries equal its
head. -/
theorem allSameBool_iff (l : List ℚ) :
    allSameBool l = true ↔ (¬ l = [] ∧ ∀ x ∈ l, x = l.headD 0) := by
  cases l with
  | nil => simp [allSameBool]
  | cons b bs =>
    simp only [allSameBool, List.all_eq_true, decide_eq_true_eq, List.headD_cons]
    constructor
    · intro hAll
      refine ⟨by simp, ?_⟩
      intro x hx
      rcases List.mem_cons.mp hx with h | h
      · rw [h]
      · exact hAll x h
    · intro hp x hx
      exact hp.2 x (List.mem_cons_of_mem _ hx)

/-- The classification of the code and the ordered rules of the claim agree
on every balance list and pre-year balance. -/
theorem classify_eq_rules (balances : List ℚ) (pre : ℚ) :
    classify_rotation balances pre = rotation_rules balances pre := by
  have hz : (balances.all fun b => decide (b = 0)) = true ↔ ∀ b ∈ balances, b = 0 := by
    simp [List.all_eq_true]
  unfold classify_rotation rotation_rules
  simp only [Bool.and_eq_true, decide_eq_true_eq, hz, allSameBool_iff, and_assoc]

/-- C7: the rotation classification is computed from the 12 monthly running
balances of the current year started at the pre-year balance, by the ordered
rules (a) Activo when all balances and the pre-year balance are zero, (b)
Obsoleto when all balances are zero and the pre-year balance is positive, (c)
Obsoleto when all balances are identical and positive, (d) Estancado when the
last three balances are identical and positive, (e) Activo otherwise; in
particular a product with initial balance 100, no current-year movement and
pre-year balance 0 is Activo, and the same product with pre-year balance 50
is Obsoleto. -/
theorem c7_rotation_classification :
    (∀ (recs : List InventoryRecord) (pid y : Nat) (init : ℚ),
      rotation_for_product recs pid y init =
        rotation_rules (monthly_balances recs pid y init) (balance_pre_year recs pid y init)) ∧
    rotation_for_product [exPreRecFull] 0 2025 100 = "Activo" ∧
    rotation_for_product [exPreRecHalf] 0 2025 100 = "Obsoleto" := by
  refine ⟨fun recs pid y init => classify_eq_rules _ _, ?_, ?_⟩
  · norm_num [rotation_for_product, monthly_balances, balancesAux, monthly_total,
      balance_pre_year, pre_year_sum, yearOf, monthOf, classify_rotation, allSameBool,
      exPreRecFull, List.filter_cons, List.filter_nil]
  · norm_num [rotation_for_product, monthly_balances, balancesAux, monthly_total,
      balance_pre_year, pre_year_sum, yearOf, monthOf, classify_rotation, allSameBool,
      exPreRecHalf, List.filter_cons, List.filter_nil]

/-- Witness instance of C7's classification examples. -/
theorem c7_rotation_classification_witness :
    rotation_for_product [exPreRecFull] 0 2025 100 = "Activo" :=
  c7_rotation_classification.2.1

/-- C1: for every product, the current stock reported by the analytics engine
equals the product's initial balance plus the signed sum of the quantities of
its ledger rows (over all warehouses and dates), in every state reachable by
any sequence of base and update imports. -/
theorem c1_balance_reconciliation (h mL mC : String → String) (db0 db : DB)
    (hr : ReachableFrom h mL mC db0 db) (p : Product) (hp : p ∈ db.products) :
    current_stock db.records p = p.initial_balance + ledger_quantity_sum db.records p.id := by
  unfold current_stock
  rw [total_movements_eq_ledger_sum]

/-- Witness for C1 at a concrete reachable state. -/
theorem c1_balance_reconciliation_witness :
    ReachableFrom exHash id id exDB exDB ∧ exProduct ∈ exDB.products ∧
    current_stock exDB.records exProduct =
      exProduct.initial_balance + ledger_quantity_sum exDB.records exProduct.id :=
  ⟨ReachableFrom.refl exDB, by simp [exDB],
    c1_balance_reconciliation exHash id id exDB exDB (ReachableFrom.refl exDB) exProduct
      (by simp [exDB])⟩

/-- Witness for C9 at concrete inputs. -/
theorem c9_update_preserves_products_witness :
    ∃ stubs added,
      (process_update_file id id 1 [exProduct] [exRecord] 1 [exRowZero]).products =
        [exProduct] ++ stubs ∧
      (process_update_file id id 1 [exProduct] [exRecord] 1 [exRowZero]).records =
        [exRecord] ++ added ∧
      ∀ q ∈ stubs, q.initial_balance = 0 ∧ q.initial_unit_cost = 0 ∧
        ∀ p ∈ [exProduct], ¬ p.code = q.code :=
  c9_update_preserves_products id id 1 [exProduct] [exRecord] 1 [exRowZero]

/-- A conflict-ignoring bulk insert preserves key-distinctness of the table:
a row is inserted only when no present row raises a conflict against it. -/
theorem pairwise_bulkCreate (q db : List InventoryRecord)
    (hdb : db.Pairwise keyNe) : (bulkCreateRecords db q).Pairwise keyNe := by
  induction q generalizing db with
  | nil => simpa [bulkCreateRecords] using hdb
  | cons r rs ih =>
    by_cases hc : db.any (fun x => sqlConflict x r) = true
    · simpa [bulkCreateRecords, hc] using ih db hdb
    · have hnew : ∀ x ∈ db, keyNe x r := by
        intro x hx heq
        refine hc (List.any_eq_true.mpr ⟨x, hx, ?_⟩)
        simp only [sqlConflict, decide_eq_true_eq]
        exact heq
      have hdb1 : (db ++ [r]).Pairwise keyNe := by
        rw [List.pairwise_append]
        refine ⟨hdb, List.pairwise_singleton _ _, ?_⟩
        intro a ha b hb
        simp only [List.mem_singleton] at hb
        rw [hb]
        exact hnew a ha
      simpa [bulkCreateRecords, hc] using ih (db ++ [r]) hdb1

/-- A queue flush preserves key-distinctness. -/
theorem flushQueue_pairwise (l : Loop) (hl : l.records.Pairwise keyNe) :
    (flushQueue l).records.Pairwise keyNe :=
  pairwise_bulkCreate l.queue l.records hl

/-- One row-loop step preserves key-distinctness of the persisted ledger. -/
theorem stepRow_pairwise (mL mC : String → String) (b : Nat) (prods : List Product)
    (l : Loop) (row : UpdateRow) (hl : l.records.Pairwise keyNe) :
    (stepRow mL mC b prods l row).records.Pairwise keyNe := by
  unfold stepRow
  by_cases h0 : row.item = ""
  · simpa [h0] using hl
  · simp only [h0, if_false]
    cases hf : prods.find? (fun p => p.code == row.item) with
    | none => simpa using hl
    | some p =>
      simp only
      by_cases hq : row.entradas - row.salidas = 0
      · simpa [hq] using hl
      · simp only [hq, if_false]
        cases hd : parseYMD row.fecha with
        | none => simpa using hl
        | some d =>
          simp only
          by_cases hdup : l.records.any (dupMatch (docTypeOf row) (docNumberOf row) p.id
              (row.cost_center.map stripChars) d (mL (stripChars row.localizacion))) = true
          · simpa [hdup] using hl
          · simp only [hdup, if_false]
            by_cases hlen : 500 ≤ l.queue.length + 1
            · simp only [List.length_append, List.length_singleton, hlen, if_true]
              exact flushQueue_pairwise _ hl
            · simp only [List.length_append, List.length_singleton, hlen, if_false]
              simpa using hl

/-- The whole row loop preserves key-distinctness. -/
theorem foldRows_pairwise (mL mC : String → String) (b : Nat) (prods : List Product)
    (rows : List UpdateRow) (l : Loop) (hl : l.records.Pairwise keyNe) :
    ((rows.foldl (stepRow mL mC b prods) l).records).Pairwise keyNe := by
  induction rows generalizing l with
  | nil => simpa using hl
  | cons r rs ih => exact ih _ (stepRow_pairwise mL mC b prods l r hl)

/-- `_process_update_file` preserves key-distinctness of the ledger. -/
theorem process_update_file_pairwise (mL mC : String → String) (b : Nat)
    (prods : List Product) (recs : List InventoryRecord) (pid : Nat)
    (rows : List UpdateRow) (hrecs : recs.Pairwise keyNe) :
    (process_update_file mL mC b prods recs pid rows).records.Pairwise keyNe := by
  unfold process_update_file
  simp only
  exact flushQueue_pairwise _ (foldRows_pairwise _ _ _ _ _ _ hrecs)

/-- The update-file loop preserves key-distinctness. -/
theorem run_updates_pairwise (mL mC : String → String) (bid : Nat)
    (files : List UploadFile) (db : DB) (hdb : db.records.Pairwise keyNe) :
    (run_updates mL mC bid db files).1.records.Pairwise keyNe := by
  induction files generalizing db with
  | nil => simpa [run_updates] using hdb
  | cons f fs ih =>
    simp only [run_updates]
    exact ih _ (process_update_file_pairwise mL mC bid db.products db.records
      db.nextProductId f.rows hdb)

/-- The base importer never touches the ledger. -/
theorem process_base_file_records (mC : String → String) (rows : List BaseRow) (db : DB) :
    (process_base_file mC rows db).1.records = db.records := rfl

/-- The checksum-replacement delete preserves key-distinctness. -/
theorem delete_batch_pairwise (db : DB) (cs : String)
    (hdb : db.records.Pairwise keyNe) :
    (delete_batch_by_checksum db cs).records.Pairwise keyNe := by
  unfold delete_batch_by_checksum
  cases hf : db.batches.find? (fun b => b.checksum == cs) with
  | none => simpa using hdb
  | some ex => exact List.Pairwise.filter _ hdb

/-- The partition reset preserves key-distinctness. -/
theorem clear_partition_pairwise (db : DB) (hdb : db.records.Pairwise keyNe) :
    (clear_partition db).records.Pairwise keyNe :=
  List.Pairwise.filter _ hdb

/-- One whole upload preserves key-distinctness of the ledger. -/
theorem stage_batch_records (db : DB) (cs : String) (ns : List String) :
    (stage_batch db cs ns).records = (delete_batch_by_checksum db cs).records := rfl

/-- Batch staging preserves key-distinctness of the ledger. -/
theorem stage_batch_pairwise (db : DB) (cs : String) (ns : List String)
    (hdb : db.records.Pairwise keyNe) :
    (stage_batch db cs ns).records.Pairwise keyNe := by
  rw [stage_batch_records]
  exact delete_batch_pairwise db cs hdb

/-- Base-file processing preserves key-distinctness of the ledger. -/
theorem run_base_pairwise (mC : String → String) (base : Option BaseFileData) (db : DB)
    (hdb : db.records.Pairwise keyNe) :
    (run_base mC base db).1.records.Pairwise keyNe := by
  cases base with
  | none => exact hdb
  | some bf =>
    simp only [run_base]
    rw [process_base_file_records]
    exact clear_partition_pairwise _ hdb

/-- The whole post-validation pipeline preserves key-distinctness. -/
theorem run_import_pairwise (h mL mC : String → String) (db : DB)
    (base : Option BaseFileData) (updates : List UploadFile)
    (hdb : db.records.Pairwise keyNe) :
    (run_import h mL mC db base updates).2.records.Pairwise keyNe := by
  unfold run_import
  simp only
  repeat' split
  all_goals
    apply run_updates_pairwise
    exact run_base_pairwise mC base _ (stage_batch_pairwise db _ _ hdb)

/-- One whole upload preserves key-distinctness of the ledger. -/
theorem update_inventory_pairwise (h mL mC : String → String) (db : DB)
    (base : Option BaseFileData) (updates : List UploadFile)
    (hdb : db.records.Pairwise keyNe) :
    (update_inventory h mL mC db base updates).2.records.Pairwise keyNe := by
  unfold update_inventory
  simp only
  repeat' split
  all_goals first
    | exact hdb
    | exact run_import_pairwise h mL mC db base updates hdb

/-- Key-distinctness of the ledger is preserved along any upload sequence. -/
theorem reachable_pairwise (h mL mC : String → String) (db0 db : DB)
    (h0 : db0.records.Pairwise keyNe) (hr : ReachableFrom h mL mC db0 db) :
    db.records.Pairwise keyNe := by
  induction hr with
  | refl => exact h0
  | step dbp base updates hprev ih => exact update_inventory_pairwise h mL mC _ base updates ih

/-- A row that reaches the duplicate check without a match is queued: the
loop appends the built ledger row to the queue and counts it as created
(below 500 queued rows nothing is flushed). -/
theorem stepRow_insert (mL mC : String → String) (b : Nat) (prods : List Product)
    (l : Loop) (row1 : UpdateRow) (p : Product) (d : Nat)
    (h0 : ¬ row1.item = "")
    (hf : prods.find? (fun q => q.code == row1.item) = some p)
    (hq : ¬ row1.entradas - row1.salidas = 0)
    (hd : parseYMD row1.fecha = some d)
    (hdup : l.records.any (dupMatch (docTypeOf row1) (docNumberOf row1) p.id
      (row1.cost_center.map stripChars) d (mL (stripChars row1.localizacion))) = false)
    (hlen : ¬ 500 ≤ l.queue.length + 1) :
    stepRow mL mC b prods l row1 =
      { l with queue := l.queue ++ [mkRecFromRow mL mC b p d row1]
               created := l.created + 1 } := by
  unfold stepRow
  simp only [h0, if_false, hf]
  simp only [hq, if_false, hd]
  simp only [hdup, Bool.false_eq_true, if_false, List.length_append, List.length_singleton,
    hlen]

/-- Full evaluation of the two-row scenario: both rows pass the runtime
duplicate check and are counted, but the conflict-ignoring insert keeps only
the first row. -/
theorem processPairScenario :
    process_update_file id id 1 [exProduct] [] 1 [exRowPair1, exRowPair2] =
      { products := [exProduct], records := [exPairRec1], nextProductId := 1
        created := 2, dups := 0, errors := 0 } := by
  have hnorm : List.map (fun r => { r with item := lstripZeros (stripChars r.item) })
      [exRowPair1, exRowPair2] = [exRowPair1, exRowPair2] := by decide
  have hmiss : (firstUniquesAux [] (List.map (fun r => r.item) [exRowPair1, exRowPair2])).filter
      (fun c => (List.find? (fun p => p.code == c) [exProduct]).isNone) = [] := by decide
  have hkeys : sqlConflict (mkRecFromRow id id 1 exProduct 20240105 exRowPair1)
      (mkRecFromRow id id 1 exProduct 20240106 exRowPair2) = true := by decide
  have hrec1 : mkRecFromRow id id 1 exProduct 20240105 exRowPair1 = exPairRec1 := by
    norm_num [mkRecFromRow, exPairRec1, exRowPair1, exProduct, docTypeOf, docNumberOf,
      stripChars]
    decide
  unfold process_update_file
  simp only
  rw [hnorm]
  rw [hmiss]
  simp only [createStubs, List.append_nil, List.foldl_cons, List.foldl_nil]
  rw [stepRow_insert id id 1 [exProduct]
    { records := [], queue := [], created := 0, dups := 0, errors := 0 }
    exRowPair1 exProduct 20240105 (by decide) (by decide) (by norm_num [exRowPair1])
    (by decide) rfl (by decide)]
  rw [stepRow_insert id id 1 [exProduct]
    { records := [], queue := [] ++ [mkRecFromRow id id 1 exProduct 20240105 exRowPair1]
      created := 0 + 1, dups := 0, errors := 0 }
    exRowPair2 exProduct 20240106 (by decide) (by decide) (by norm_num [exRowPair2])
    (by decide) rfl (by decide)]
  simp only [flushQueue, List.nil_append]
  have hb : bulkCreateRecords ([] : List InventoryRecord)
      [mkRecFromRow id id 1 exProduct 20240105 exRowPair1,
       mkRecFromRow id id 1 exProduct 20240106 exRowPair2] =
      [mkRecFromRow id id 1 exProduct 20240105 exRowPair1] := by
    simp [bulkCreateRecords, hkeys]
  simp only [List.cons_append, List.nil_append]
  rw [hb, hrec1]

/-- Full evaluation of the two-row scenario without a cost-center column:
both rows pass the runtime duplicate check, both are counted, and — the
unique key containing a `NULL` — the bulk insert persists both. -/
theorem processNullPairScenario :
    process_update_file id id 1 [exProduct] [] 1 [exRowNull1, exRowNull2] =
      { products := [exProduct], records := [exNullRec1, exNullRec2], nextProductId := 1
        created := 2, dups := 0, errors := 0 } := by
  have hnorm : List.map (fun r => { r with item := lstripZeros (stripChars r.item) })
      [exRowNull1, exRowNull2] = [exRowNull1, exRowNull2] := by decide
  have hmiss : (firstUniquesAux [] (List.map (fun r => r.item) [exRowNull1, exRowNull2])).filter
      (fun c => (List.find? (fun p => p.code == c) [exProduct]).isNone) = [] := by decide
  have hnoconf : sqlConflict (mkRecFromRow id id 1 exProduct 20240105 exRowNull1)
      (mkRecFromRow id id 1 exProduct 20240106 exRowNull2) = false := by decide
  have hrec1 : mkRecFromRow id id 1 exProduct 20240105 exRowNull1 = exNullRec1 := by
    norm_num [mkRecFromRow, exNullRec1, exRowNull1, exProduct, docTypeOf, docNumberOf,
      stripChars]
    decide
  have hrec2 : mkRecFromRow id id 1 exProduct 20240106 exRowNull2 = exNullRec2 := by
    norm_num [mkRecFromRow, exNullRec2, exRowNull2, exProduct, docTypeOf, docNumberOf,
      stripChars]
    decide
  unfold process_update_file
  simp only
  rw [hnorm]
  rw [hmiss]
  simp only [createStubs, List.append_nil, List.foldl_cons, List.foldl_nil]
  rw [stepRow_insert id id 1 [exProduct]
    { records := [], queue := [], created := 0, dups := 0, errors := 0 }
    exRowNull1 exProduct 20240105 (by decide) (by decide) (by norm_num [exRowNull1])
    (by decide) rfl (by decide)]
  rw [stepRow_insert id id 1 [exProduct]
    { records := [], queue := [] ++ [mkRecFromRow id id 1 exProduct 20240105 exRowNull1]
      created := 0 + 1, dups := 0, errors := 0 }
    exRowNull2 exProduct 20240106 (by decide) (by decide) (by norm_num [exRowNull2])
    (by decide) rfl (by decide)]
  simp only [flushQueue, List.nil_append]
  have hb : bulkCreateRecords ([] : List InventoryRecord)
      [mkRecFromRow id id 1 exProduct 20240105 exRowNull1,
       mkRecFromRow id id 1 exProduct 20240106 exRowNull2] =
      [mkRecFromRow id id 1 exProduct 20240105 exRowNull1,
       mkRecFromRow id id 1 exProduct 20240106 exRowNull2] := by
    simp [bulkCreateRecords, hnoconf]
  simp only [List.cons_append, List.nil_append]
  rw [hb, hrec1, hrec2]

/-- C10 is violated as stated: when the update file has no cost-center
column (so `cost_center` is SQL `NULL`), two rows with the same document
type, document number, product and batch both persist — PostgreSQL's unique
constraint treats `NULL`s as distinct, so `ON CONFLICT DO NOTHING` never
fires.  The final ledger holds two distinct records with equal unique key,
refuting the claimed no-two-rows-share-the-key invariant. -/
theorem c10_unique_key_counterexample :
    (process_update_file id id 1 [exProduct] [] 1 [exRowNull1, exRowNull2]).records =
      [exNullRec1, exNullRec2] ∧
    (process_update_file id id 1 [exProduct] [] 1 [exRowNull1, exRowNull2]).created = 2 ∧
    (process_update_file id id 1 [exProduct] [] 1 [exRowNull1, exRowNull2]).dups = 0 ∧
    recKey exNullRec1 = recKey exNullRec2 ∧
    ¬ exNullRec1 = exNullRec2 ∧
    ¬ (process_update_file id id 1 [exProduct] [] 1
        [exRowNull1, exRowNull2]).records.Pairwise (fun a b => ¬ recKey a = recKey b) := by
  refine ⟨by rw [processNullPairScenario], by rw [processNullPairScenario],
    by rw [processNullPairScenario], by decide, by decide, ?_⟩
  rw [processNullPairScenario]
  intro hp
  rcases List.pairwise_cons.mp hp with ⟨h1, _⟩
  exact h1 exNullRec2 (List.mem_cons_self _ _) (by decide)

/-- C10 (amended): deduplication by the unique key applies only to rows
whose nullable key columns (document type, document number, cost center) are
all present.  In every state reachable from the empty partition, no two
ledger rows share a fully-non-`NULL` unique key; one file with two same-key
rows (cost center present) counts both as created yet persists only the
first; but the same two rows without a cost-center column both persist, with
equal unique keys. -/
theorem c10_unique_key_amended :
    (∀ (h mL mC : String → String) (db : DB), ReachableFrom h mL mC emptyDB db →
      db.records.Pairwise keyNe) ∧
    ((process_update_file id id 1 [exProduct] [] 1 [exRowPair1, exRowPair2]).created = 2 ∧
     (process_update_file id id 1 [exProduct] [] 1 [exRowPair1, exRowPair2]).dups = 0 ∧
     (process_update_file id id 1 [exProduct] [] 1 [exRowPair1, exRowPair2]).records =
       [exPairRec1]) ∧
    ((process_update_file id id 1 [exProduct] [] 1 [exRowNull1, exRowNull2]).created = 2 ∧
     (process_update_file id id 1 [exProduct] [] 1 [exRowNull1, exRowNull2]).dups = 0 ∧
     (process_update_file id id 1 [exProduct] [] 1 [exRowNull1, exRowNull2]).records =
       [exNullRec1, exNullRec2] ∧
     recKey exNullRec1 = recKey exNullRec2) := by
  refine ⟨fun h mL mC db hr =>
    reachable_pairwise h mL mC emptyDB db (by simp [emptyDB]) hr, ⟨?_, ?_, ?_⟩, ?_, ?_, ?_, ?_⟩
  · rw [processPairScenario]
  · rw [processPairScenario]
  · rw [processPairScenario]
  · rw [processNullPairScenario]
  · rw [processNullPairScenario]
  · rw [processNullPairScenario]
  · decide

/-- Witness for the amended C10: the `NULL`-aware key-uniqueness invariant
instantiated at a state one upload away from the empty partition. -/
theorem c10_unique_key_amended_witness :
    ((update_inventory exHash id id emptyDB (some exBaseFileData) []).2).records.Pairwise keyNe :=
  c10_unique_key_amended.1 exHash id id _
    (ReachableFrom.step emptyDB emptyDB (some exBaseFileData) [] (ReachableFrom.refl emptyDB))

/-- The created counter of the row loop never decreases, and when a step
leaves it unchanged the step left the ledger and the queue unchanged too. -/
theorem stepRow_created (mL mC : String → String) (b : Nat) (prods : List Product)
    (l : Loop) (row : UpdateRow) :
    l.created ≤ (stepRow mL mC b prods l row).created ∧
    ((stepRow mL mC b prods l row).created = l.created →
      (stepRow mL mC b prods l row).records = l.records ∧
      (stepRow mL mC b prods l row).queue = l.queue) := by
  unfold stepRow
  by_cases h0 : row.item = ""
  · simp [h0]
  · simp only [h0, if_false]
    cases hf : prods.find? (fun p => p.code == row.item) with
    | none => simp
    | some p =>
      simp only
      by_cases hq : row.entradas - row.salidas = 0
      · simp [hq]
      · simp only [hq, if_false]
        cases hd : parseYMD row.fecha with
        | none => simp
        | some d =>
          simp only
          by_cases hdup : l.records.any (dupMatch (docTypeOf row) (docNumberOf row) p.id
              (row.cost_center.map stripChars) d (mL (stripChars row.localizacion))) = true
          · simp [hdup]
          · simp only [hdup, Bool.false_eq_true, if_false]
            by_cases hlen : 500 ≤ l.queue.length + 1
            · simp only [List.length_append, List.length_singleton, hlen, if_true]
              exact ⟨Nat.le_succ _, fun hc => absurd hc (Nat.succ_ne_self _)⟩
            · simp only [List.length_append, List.length_singleton, hlen, if_false]
              exact ⟨Nat.le_succ _, fun hc => absurd hc (Nat.succ_ne_self _)⟩

/-- When the whole row loop created nothing, it left the ledger and the
queue unchanged. -/
theorem foldRows_created_zero (mL mC : String → String) (b : Nat) (prods : List Product)
    (rows : List UpdateRow) (l : Loop)
    (hc : (rows.foldl (stepRow mL mC b prods) l).created = l.created) :
    (rows.foldl (stepRow mL mC b prods) l).records = l.records ∧
    (rows.foldl (stepRow mL mC b prods) l).queue = l.queue := by
  induction rows generalizing l with
  | nil => exact ⟨rfl, rfl⟩
  | cons r rs ih =>
    simp only [List.foldl_cons] at hc ⊢
    have hle1 := (stepRow_created mL mC b prods l r).1
    have hle2 : (stepRow mL mC b prods l r).created ≤
        (rs.foldl (stepRow mL mC b prods) (stepRow mL mC b prods l r)).created := by
      clear hc ih
      generalize stepRow mL mC b prods l r = l1
      induction rs generalizing l1 with
      | nil => exact le_refl _
      | cons x xs ihx =>
        simp only [List.foldl_cons]
        exact le_trans (stepRow_created mL mC b prods l1 x).1 (ihx _)
    have hstep : (stepRow mL mC b prods l r).created = l.created :=
      le_antisymm (by omega) hle1
    obtain ⟨hr1, hq1⟩ := (stepRow_created mL mC b prods l r).2 hstep
    have hfold : (rs.foldl (stepRow mL mC b prods) (stepRow mL mC b prods l r)).created =
        (stepRow mL mC b prods l r).created := by omega
    obtain ⟨hr2, hq2⟩ := ih _ hfold
    exact ⟨hr2.trans hr1, hq2.trans hq1⟩

/-- An update file that created no records left the ledger unchanged. -/
theorem process_update_file_created_zero (mL mC : String → String) (b : Nat)
    (prods : List Product) (recs : List InventoryRecord) (pid : Nat)
    (rows : List UpdateRow)
    (hc : (process_update_file mL mC b prods recs pid rows).created = 0) :
    (process_update_file mL mC b prods recs pid rows).records = recs := by
  unfold process_update_file at hc ⊢
  simp only [flushQueue] at hc ⊢
  obtain ⟨hr, hq⟩ := foldRows_created_zero mL mC b _ _
    { records := recs, queue := [], created := 0, dups := 0, errors := 0 } hc
  rw [hq, hr]
  simp [bulkCreateRecords]

/-- The product table after an update file is the old table with
zero-balance stubs appended. -/
theorem process_update_file_products (mL mC : String → String) (b : Nat)
    (prods : List Product) (recs : List InventoryRecord) (pid : Nat)
    (rows : List UpdateRow) :
    ∃ stubs, (process_update_file mL mC b prods recs pid rows).products = prods ++ stubs ∧
      ∀ q ∈ stubs, q.initial_balance = 0 ∧ q.initial_unit_cost = 0 := by
  refine ⟨_, rfl, ?_⟩
  intro q hq
  obtain ⟨h1, h2, _⟩ := createStubs_mem mC _ (fun _ => True) _ pid (fun _ _ => trivial) q hq
  exact ⟨h1, h2⟩

/-- The update-file loop never touches the batch table. -/
theorem run_updates_batches (mL mC : String → String) (bid : Nat)
    (files : List UploadFile) (db : DB) :
    (run_updates mL mC bid db files).1.batches = db.batches := by
  induction files generalizing db with
  | nil => rfl
  | cons f fs ih => simpa [run_updates] using ih _

/-- The update-file loop only appends zero-balance stub products. -/
theorem run_updates_products (mL mC : String → String) (bid : Nat)
    (files : List UploadFile) (db : DB) :
    ∃ stubs, (run_updates mL mC bid db files).1.products = db.products ++ stubs ∧
      ∀ q ∈ stubs, q.initial_balance = 0 ∧ q.initial_unit_cost = 0 := by
  induction files generalizing db with
  | nil => exact ⟨[], by simp [run_updates], by simp⟩
  | cons f fs ih =>
    simp only [run_updates]
    obtain ⟨s1, hs1, hp1⟩ := process_update_file_products mL mC bid db.products db.records
      db.nextProductId f.rows
    obtain ⟨s2, hs2, hp2⟩ := ih { db with
      products := (process_update_file mL mC bid db.products db.records db.nextProductId f.rows).products
      records := (process_update_file mL mC bid db.products db.records db.nextProductId f.rows).records
      nextProductId := (process_update_file mL mC bid db.products db.records db.nextProductId f.rows).nextProductId }
    refine ⟨s1 ++ s2, ?_, ?_⟩
    · rw [hs2]
      simp only
      rw [hs1, List.append_assoc]
    · intro q hq
      rcases List.mem_append.mp hq with hq | hq
      · exact hp1 q hq
      · exact hp2 q hq

/-- An update-file loop that created nothing in total left the ledger
unchanged. -/
theorem run_updates_created_zero (mL mC : String → String) (bid : Nat)
    (files : List UploadFile) (db : DB)
    (hc : (run_updates mL mC bid db files).2.1 = 0) :
    (run_updates mL mC bid db files).1.records = db.records := by
  induction files generalizing db with
  | nil => rfl
  | cons f fs ih =>
    simp only [run_updates] at hc ⊢
    have hz : (process_update_file mL mC bid db.products db.records db.nextProductId
        f.rows).created = 0 := by omega
    have hrest : (run_updates mL mC bid { db with
        products := (process_update_file mL mC bid db.products db.records db.nextProductId f.rows).products
        records := (process_update_file mL mC bid db.products db.records db.nextProductId f.rows).records
        nextProductId := (process_update_file mL mC bid db.products db.records db.nextProductId f.rows).nextProductId }
        fs).2.1 = 0 := by omega
    have := ih _ hrest
    rw [this]
    simp only
    exact process_update_file_created_zero mL mC bid _ _ _ _ hz

/-- The checksum-replacement delete: the ledger afterwards is a sublist of
the ledger before. -/
theorem delete_batch_records_sublist (db : DB) (cs : String) :
    List.Sublist (delete_batch_by_checksum db cs).records db.records := by
  unfold delete_batch_by_checksum
  cases db.batches.find? (fun b => b.checksum == cs) with
  | none => exact List.Sublist.refl _
  | some ex => exact List.filter_sublist _

/-- The checksum-replacement delete: the batch table afterwards is a sublist
of the table before. -/
theorem delete_batch_batches_sublist (db : DB) (cs : String) :
    List.Sublist (delete_batch_by_checksum db cs).batches db.batches := by
  unfold delete_batch_by_checksum
  cases db.batches.find? (fun b => b.checksum == cs) with
  | none => exact List.Sublist.refl _
  | some ex => exact List.filter_sublist _

/-- The checksum-replacement delete never touches the product table. -/
theorem delete_batch_products (db : DB) (cs : String) :
    (delete_batch_by_checksum db cs).products = db.products := by
  unfold delete_batch_by_checksum
  cases db.batches.find? (fun b => b.checksum == cs) with
  | none => rfl
  | some ex => rfl

/-- The checksum-replacement delete never touches the id counters. -/
theorem delete_batch_nextBatchId (db : DB) (cs : String) :
    (delete_batch_by_checksum db cs).nextBatchId = db.nextBatchId := by
  unfold delete_batch_by_checksum
  cases db.batches.find? (fun b => b.checksum == cs) with
  | none => rfl
  | some ex => rfl

/-- The base importer never touches the batch table. -/
theorem process_base_file_batches (mC : String → String) (rows : List BaseRow) (db : DB) :
    (process_base_file mC rows db).1.batches = db.batches := rfl

/-- The grouped-row loop of the base importer: the counter never decreases,
and a step that leaves it unchanged queued nothing. -/
theorem baseStep_count (mapCat : String → String) (existing : List String)
    (acc : BaseAcc) (kg : (String × String × String) × GroupResult) :
    acc.count ≤ (baseStep mapCat existing acc kg).count ∧
    ((baseStep mapCat existing acc kg).count = acc.count →
      (baseStep mapCat existing acc kg).queued = acc.queued) := by
  unfold baseStep
  by_cases h1 : kg.1.1 = "" ∨ kg.1.1 ∈ acc.processed ∨ kg.1.1 ∈ existing
  · simp [h1]
  · simp only [h1, if_false]
    by_cases h2 : kg.1.2.1 = ""
    · simp [h2]
    · simp only [h2, if_false]
      exact ⟨Nat.le_succ _, fun hc => absurd hc (Nat.succ_ne_self _)⟩

/-- A base-importer run that counted nothing queued nothing. -/
theorem baseFold_count_zero (mapCat : String → String) (existing : List String)
    (gs : List ((String × String × String) × GroupResult)) (acc : BaseAcc)
    (hc : (gs.foldl (baseStep mapCat existing) acc).count = acc.count) :
    (gs.foldl (baseStep mapCat existing) acc).queued = acc.queued := by
  induction gs generalizing acc with
  | nil => rfl
  | cons g gs ih =>
    simp only [List.foldl_cons] at hc ⊢
    have hle1 := (baseStep_count mapCat existing acc g).1
    have hle2 : (baseStep mapCat existing acc g).count ≤
        (gs.foldl (baseStep mapCat existing) (baseStep mapCat existing acc g)).count := by
      clear hc ih
      generalize baseStep mapCat existing acc g = a1
      induction gs generalizing a1 with
      | nil => exact le_refl _
      | cons x xs ihx =>
        simp only [List.foldl_cons]
        exact le_trans (baseStep_count mapCat existing a1 x).1 (ihx _)
    have hstep : (baseStep mapCat existing acc g).count = acc.count :=
      le_antisymm (by omega) hle1
    have hq1 := (baseStep_count mapCat existing acc g).2 hstep
    have hfold : (gs.foldl (baseStep mapCat existing) (baseStep mapCat existing acc g)).count =
        (baseStep mapCat existing acc g).count := by omega
    exact (ih _ hfold).trans hq1

/-- A base import that processed zero products left the product table
unchanged. -/
theorem process_base_file_count_zero (mC : String → String) (rows : List BaseRow) (db : DB)
    (hc : (process_base_file mC rows db).2 = 0) :
    (process_base_file mC rows db).1.products = db.products := by
  unfold process_base_file at hc ⊢
  simp only at hc ⊢
  rw [baseFold_count_zero _ _ _ _ hc]
  simp [bulkCreateProducts]

/-- Batch staging leaves the product table unchanged. -/
theorem stage_batch_products (db : DB) (cs : String) (ns : List String) :
    (stage_batch db cs ns).products = db.products := by
  have h1 : (stage_batch db cs ns).products = (delete_batch_by_checksum db cs).products := rfl
  rw [h1, delete_batch_products]

/-- The staged batch table: the filtered old table plus the fresh
unprocessed batch row. -/
theorem stage_batch_batches (db : DB) (cs : String) (ns : List String) :
    (stage_batch db cs ns).batches =
      (delete_batch_by_checksum db cs).batches ++
        [new_batch_row (delete_batch_by_checksum db cs).nextBatchId ns cs] := rfl

/-- Batch staging only removes ledger rows. -/
theorem stage_batch_records_sublist (db : DB) (cs : String) (ns : List String) :
    List.Sublist (stage_batch db cs ns).records db.records := by
  rw [stage_batch_records]
  exact delete_batch_records_sublist db cs

/-- Base-file processing only removes ledger rows. -/
theorem run_base_records_sublist (mC : String → String) (base : Option BaseFileData)
    (db : DB) :
    List.Sublist (run_base mC base db).1.records db.records := by
  cases base with
  | none => exact List.Sublist.refl _
  | some bf =>
    simp only [run_base]
    rw [process_base_file_records]
    unfold clear_partition
    simp only []
    exact List.filter_sublist _

/-- Base-file processing never touches the batch table. -/
theorem run_base_batches (mC : String → String) (base : Option BaseFileData) (db : DB) :
    (run_base mC base db).1.batches = db.batches := by
  cases base with
  | none => rfl
  | some bf => exact process_base_file_batches mC _ _

/-- A base run that processed zero products leaves the product table as it
was, provided the table was empty whenever a base file is present (which the
view's validations guarantee). -/
theorem run_base_products_zero (mC : String → String) (base : Option BaseFileData)
    (db : DB) (hz : (run_base mC base db).2 = 0)
    (hemp : base.isSome = true → db.products = []) :
    (run_base mC base db).1.products = db.products := by
  cases base with
  | none => rfl
  | some bf =>
    simp only [run_base] at hz ⊢
    rw [process_base_file_count_zero _ _ _ hz]
    have h1 : (clear_partition db).products = [] := rfl
    rw [h1]
    exact (hemp rfl).symm

/-- The post-validation pipeline, when it ends in the zero-imports 500
failure: the response is an error, yet the new batch row and the stub
products persist, and only checksum-replacement deletions touched the old
ledger and batch tables. -/
theorem run_import_500 (h mL mC : String → String) (db : DB)
    (base : Option BaseFileData) (updates : List UploadFile)
    (hemp : base.isSome = true → db.products = [])
    (h500 : (run_import h mL mC db base updates).1.status = 500) :
    (run_import h mL mC db base updates).1.ok = false ∧
    List.Sublist (run_import h mL mC db base updates).2.records db.records ∧
    (∃ kept nb, (run_import h mL mC db base updates).2.batches = kept ++ [nb] ∧
      List.Sublist kept db.batches ∧ nb.processed = false ∧ nb.rows_imported = 0) ∧
    (∃ stubs, (run_import h mL mC db base updates).2.products = db.products ++ stubs ∧
      ∀ q ∈ stubs, q.initial_balance = 0 ∧ q.initial_unit_cost = 0) := by
  set out := run_import h mL mC db base updates with hout
  clear_value out
  unfold run_import at hout
  simp only [] at hout
  split at hout
  · rename_i htot
    obtain ⟨hb0, h0⟩ := Nat.add_eq_zero.mp htot
    subst hout
    refine ⟨rfl, ?_, ?_, ?_⟩
    · simp only []
      rw [run_updates_created_zero mL mC _ updates _ h0]
      exact (run_base_records_sublist mC base _).trans (stage_batch_records_sublist db _ _)
    · simp only []
      rw [run_updates_batches, run_base_batches, stage_batch_batches]
      exact ⟨_, _, rfl, delete_batch_batches_sublist db _, rfl, rfl⟩
    · simp only []
      have hemp2 : base.isSome = true →
          (stage_batch db (computeChecksum h (import_contents base updates))
            (import_names base updates)).products = [] := by
        intro hsame
        rw [stage_batch_products]
        exact hemp hsame
      obtain ⟨stubs, hs, hst⟩ := run_updates_products mL mC
        (delete_batch_by_checksum db (computeChecksum h (import_contents base updates))).nextBatchId
        updates
        (run_base mC base (stage_batch db (computeChecksum h (import_contents base updates))
          (import_names base updates))).1
      rw [hs, run_base_products_zero mC base _ hb0 hemp2, stage_batch_products]
      exact ⟨stubs, rfl, hst⟩
  · rw [hout] at h500
    simp at h500

/-- C2 (amended): an upload whose files all parse but which imports zero
records fails with a 500 error response, and the error does surface — yet
the write is not rolled back: the old ledger loses at most
checksum-replacement rows and gains none, the batch table keeps a fresh
unprocessed batch row with zero imported rows, and any stub products created
along the way persist with zero initial balance and cost. -/
theorem c2_zero_import_amended (h mL mC : String → String) (db : DB)
    (base : Option BaseFileData) (updates : List UploadFile)
    (h500 : (update_inventory h mL mC db base updates).1.status = 500) :
    (update_inventory h mL mC db base updates).1.ok = false ∧
    List.Sublist (update_inventory h mL mC db base updates).2.records db.records ∧
    (∃ kept nb, (update_inventory h mL mC db base updates).2.batches = kept ++ [nb] ∧
      List.Sublist kept db.batches ∧ nb.processed = false ∧ nb.rows_imported = 0) ∧
    (∃ stubs, (update_inventory h mL mC db base updates).2.products = db.products ++ stubs ∧
      ∀ q ∈ stubs, q.initial_balance = 0 ∧ q.initial_unit_cost = 0) := by
  set out := update_inventory h mL mC db base updates with hout
  clear_value out
  unfold update_inventory at hout
  simp only [] at hout
  split at hout
  · rw [hout] at h500
    simp [mkErr] at h500
  · split at hout
    · rw [hout] at h500
      simp [mkErr] at h500
    · split at hout
      · rw [hout] at h500
        simp [mkErr] at h500
      · split at hout
        · rw [hout] at h500
          simp [mkErr] at h500
        · rename_i hv1 hv2 hv3 hv4
          have hemp : base.isSome = true → db.products = [] := by
            intro hs
            rw [hs] at hv1
            simp at hv1
            exact hv1
          subst hout
          exact run_import_500 h mL mC db base updates hemp h500

/-- A zero-net row whose product code resolves is skipped outright. -/
theorem stepRow_zero_found (mL mC : String → String) (b : Nat) (prods : List Product)
    (l : Loop) (row1 : UpdateRow) (p : Product)
    (h0 : ¬ row1.item = "")
    (hf : prods.find? (fun q => q.code == row1.item) = some p)
    (hq : row1.entradas - row1.salidas = 0) :
    stepRow mL mC b prods l row1 = l := by
  unfold stepRow
  simp only [h0, if_false, hf]
  simp [hq]

/-- Full evaluation of the zero-import update file: the stub product is
created, the single row is skipped for zero net quantity, nothing is
inserted. -/
theorem processZeroScenario :
    process_update_file id id 5 [exProduct] [] 3 [exRowZero] =
      { products := [exProduct, exStub2], records := [], nextProductId := 4,
        created := 0, dups := 0, errors := 0 } := by
  have hnorm : List.map (fun r => { r with item := lstripZeros (stripChars r.item) })
      [exRowZero] = [exRowZero] := by decide
  have hmiss : (firstUniquesAux [] (List.map (fun r => r.item) [exRowZero])).filter
      (fun c => (List.find? (fun p => p.code == c) [exProduct]).isNone) = ["2"] := by decide
  have hstubs : createStubs id [exRowZero] 3 ["2"] = ([exStub2], 4) := by decide
  unfold process_update_file
  simp only
  rw [hnorm, hmiss, hstubs]
  simp only [List.cons_append, List.nil_append, List.foldl_cons, List.foldl_nil]
  rw [stepRow_zero_found id id 5 [exProduct, exStub2]
    { records := [], queue := [], created := 0, dups := 0, errors := 0 }
    exRowZero exStub2 (by decide) (by decide) (by norm_num [exRowZero])]
  simp [flushQueue, bulkCreateRecords]

/-- Full evaluation of the failing zero-import upload: the response is the
500 error, yet the final state keeps the unprocessed batch row and the stub
product. -/
theorem zeroImportScenario :
    update_inventory exHash id id exDB2 none [exUpdFileZero] =
      ({ ok := false, status := 500, base_records := 0, update_records := 0,
         total_processed := 0 }, exDB4) := by
  have hdel : delete_batch_by_checksum exDB2
      (computeChecksum exHash (import_contents none [exUpdFileZero])) = exDB2 := by
    unfold delete_batch_by_checksum
    simp [exDB2]
  have hval : update_inventory exHash id id exDB2 none [exUpdFileZero] =
      run_import exHash id id exDB2 none [exUpdFileZero] := by
    unfold update_inventory
    simp [exDB2]
  have hstage : stage_batch exDB2
      (computeChecksum exHash (import_contents none [exUpdFileZero]))
      (import_names none [exUpdFileZero]) = exDB3 := by
    unfold stage_batch
    simp only
    rw [hdel]
    simp [exDB2, exDB3, exBatch2, exCS2]
  have hupd : run_updates id id 5 exDB3 [exUpdFileZero] = (exDB4, 0, 0) := by
    simp only [run_updates]
    rw [show exUpdFileZero.rows = [exRowZero] from rfl,
      show exDB3.products = [exProduct] from rfl,
      show exDB3.records = ([] : List InventoryRecord) from rfl,
      show exDB3.nextProductId = 3 from rfl, processZeroScenario]
    simp only [run_updates]
    simp [exDB3, exDB4]
  rw [hval]
  unfold run_import
  simp only
  rw [hdel, hstage]
  simp only [run_base]
  rw [show exDB2.nextBatchId = 5 from rfl, hupd]
  simp

/-- C2 as stated is violated: a zero-import upload does fail (status 500,
`ok = false`), but persistence is not rolled back — starting from a state
with no batches and one product, after the failing upload a new unprocessed
batch row and a new stub product exist. -/
theorem c2_zero_import_counterexample :
    (update_inventory exHash id id exDB2 none [exUpdFileZero]).1.status = 500 ∧
    (update_inventory exHash id id exDB2 none [exUpdFileZero]).1.ok = false ∧
    exDB2.batches = [] ∧
    (update_inventory exHash id id exDB2 none [exUpdFileZero]).2.batches = [exBatch2] ∧
    exBatch2.processed = false ∧
    exDB2.products = [exProduct] ∧
    (update_inventory exHash id id exDB2 none [exUpdFileZero]).2.products =
      [exProduct, exStub2] := by
  rw [zeroImportScenario]
  exact ⟨rfl, rfl, rfl, rfl, rfl, rfl, rfl⟩

/-- Witness for the amended C2 at the concrete zero-import scenario. -/
theorem c2_zero_import_amended_witness :
    (update_inventory exHash id id exDB2 none [exUpdFileZero]).1.status = 500 ∧
    ((update_inventory exHash id id exDB2 none [exUpdFileZero]).1.ok = false ∧
     List.Sublist (update_inventory exHash id id exDB2 none [exUpdFileZero]).2.records
       exDB2.records ∧
     (∃ kept nb,
       (update_inventory exHash id id exDB2 none [exUpdFileZero]).2.batches = kept ++ [nb] ∧
       List.Sublist kept exDB2.batches ∧ nb.processed = false ∧ nb.rows_imported = 0) ∧
     (∃ stubs,
       (update_inventory exHash id id exDB2 none [exUpdFileZero]).2.products =
         exDB2.products ++ stubs ∧
       ∀ q ∈ stubs, q.initial_balance = 0 ∧ q.initial_unit_cost = 0)) :=
  ⟨by rw [zeroImportScenario],
   c2_zero_import_amended exHash id id exDB2 none [exUpdFileZero]
     (by rw [zeroImportScenario])⟩
